import Mathlib

/-!
Shallow embedding of the MyGovHub backend conversation orchestration engine
(`src/lambda_handler.py`) and proofs about its behaviour.

Modelling conventions:
* Python strings are modelled as `List Char` (`Str`); only the ASCII
  behaviour of `str.lower/upper/title/isupper/islower/istitle` is modelled,
  which covers all data the handler manipulates.
* Python dicts used as string-to-string field maps are association lists
  (`Fmap`) with first-match lookup and update-or-append write, mirroring
  `dict` insertion-order semantics for the operations the handler uses.
* Calls to the Bedrock completion service (`run_agent`) are modelled as
  oracle inputs: an `Except Unit Str` per call site (success with the raw
  model text, or a transport failure).
* MongoDB is modelled as the session document itself; `update_one` with
  `$set`/`$unset`/`$push` becomes a function on the session record.
-/

namespace MyGovHub

abbrev Str := List Char

/-- Coerce a Lean string literal to the `Str` model. -/
def str (s : String) : Str := s.toList

/-- `str.lower()` (ASCII). -/
def pyLower (s : Str) : Str := s.map Char.toLower

/-- `str.upper()` (ASCII). -/
def pyUpper (s : Str) : Str := s.map Char.toUpper

/-- Python whitespace test for the characters the handler meets. -/
def isWs (c : Char) : Bool := c = ' ' || c = '\t' || c = '\n' || c = '\r'

/-- `str.strip()` restricted to whitespace. -/
def pyStrip (s : Str) : Str := (s.dropWhile isWs).reverse.dropWhile isWs |>.reverse

/-- `str.lstrip(chars)` / `str.rstrip(chars)` for an explicit char set. -/
def pyLstripChars (cs : List Char) (s : Str) : Str := s.dropWhile (fun c => cs.contains c)

def pyRstripChars (cs : List Char) (s : Str) : Str :=
  (s.reverse.dropWhile (fun c => cs.contains c)).reverse

/-- `str.strip(chars)` for an explicit char set. -/
def pyStripChars (cs : List Char) (s : Str) : Str := pyRstripChars cs (pyLstripChars cs s)

theorem dropWhile_len_le (p : Char → Bool) (l : List Char) :
    (l.dropWhile p).length ≤ l.length := by
  induction l with
  | nil => simp [List.dropWhile]
  | cons a t ih =>
    by_cases h : p a
    · simp [List.dropWhile, h]; omega
    · simp [List.dropWhile, h]

/-- `re.sub(r"\s+", " ", s)` : collapse whitespace runs to single spaces. -/
def collapseWs : Str → Str
  | [] => []
  | c :: rest =>
    if isWs c then
      ' ' :: collapseWs (rest.dropWhile isWs)
    else
      c :: collapseWs rest
termination_by s => s.length
decreasing_by
  · exact Nat.lt_succ_of_le (dropWhile_len_le _ _)
  · simp

/-- `needle in haystack` (Python substring test). -/
def strIn (needle haystack : Str) : Bool := decide (needle <:+: haystack)

/-- `s.startswith(p)`. -/
def pyStartsWith (p s : Str) : Bool := p.isPrefixOf s

/-- `s.split()` : split on whitespace runs, dropping empty tokens. -/
def pySplitWs (s : Str) : List Str :=
  ((s.splitOnP isWs).map id).filter (fun t => ¬ t.isEmpty)

/-- A string-to-string field map (Python dict of extracted fields),
    as an insertion-ordered association list. -/
abbrev Fmap := List (Str × Str)

namespace Fmap

/-- `d.get(k)` -/
def get (d : Fmap) (k : Str) : Option Str :=
  (d.find? (fun p => p.1 = k)).map Prod.snd

/-- `d[k] = v` : overwrite in place if present, else append. -/
def set (d : Fmap) (k v : Str) : Fmap :=
  if (d.find? (fun p => p.1 = k)).isSome then
    d.map (fun p => if p.1 = k then (k, v) else p)
  else
    d ++ [(k, v)]

/-- The keys, in order. -/
def keys (d : Fmap) : List Str := d.map Prod.fst

/-- Merge `src` into `d` field by field (`for k, v in src: d[k] = v`). -/
def merge (d src : Fmap) : Fmap := src.foldl (fun acc p => acc.set p.1 p.2) d

end Fmap

/-! ### `_normalize_ic` (src/lambda_handler.py:31-43) -/

/-- Normalize identity numbers: keep only digits/letters, uppercase.
    (`re.sub(r"[^0-9A-Za-z]", "", str(value)).upper()`; `None`/empty gives "".) -/
def normalizeIc (value : Str) : Str :=
  pyUpper (value.filter (fun c => c.isAlphanum))

/-! ### Python casing predicates used by the correction-staging code
    (`str.isupper/islower/istitle/upper/lower/title`, ASCII behaviour). -/

/-- `str.isupper()`: at least one cased char and no lowercase cased char. -/
def pyIsUpper (s : Str) : Bool :=
  s.any (fun c => c.isAlpha) && s.all (fun c => ¬ c.isAlpha || c.isUpper)

/-- `str.islower()`: at least one cased char and no uppercase cased char. -/
def pyIsLower (s : Str) : Bool :=
  s.any (fun c => c.isAlpha) && s.all (fun c => ¬ c.isAlpha || c.isLower)

/-- Helper for `istitle`: walk with a "previous char was cased" flag,
    returning (ok so far, saw a cased char). -/
def pyIsTitleAux : Bool → Str → Bool × Bool
  | _, [] => (true, false)
  | prevCased, c :: rest =>
    let ok :=
      if c.isUpper then ¬ prevCased
      else if c.isLower then prevCased
      else true
    let (restOk, restCased) := pyIsTitleAux c.isAlpha rest
    (ok && restOk, c.isAlpha || restCased)

/-- `str.istitle()` (ASCII): uppercase only after uncased, lowercase only
    after cased, and at least one cased character. -/
def pyIsTitle (s : Str) : Bool :=
  let (ok, cased) := pyIsTitleAux false s
  ok && cased

/-- `str.title()` (ASCII): first letter of each alphabetic run uppercased,
    the rest lowercased. -/
def pyTitleAux : Bool → Str → Str
  | _, [] => []
  | prevCased, c :: rest =>
    let c' := if c.isAlpha then (if prevCased then c.toLower else c.toUpper) else c
    c' :: pyTitleAux c.isAlpha rest

def pyTitle (s : Str) : Str := pyTitleAux false s

/-! ### Document context entries (spec §3; handler context keys `document_*`). -/

/-- `categoryDetection` : `{detected_category, confidence}` (confidence not
    used by the orchestration logic beyond display, so only the label is kept). -/
structure CategoryDetection where
  detected_category : Str
  deriving DecidableEq, Repr

/-- One `context.document_<name>` entry. -/
structure DocEntry where
  extractedData : Fmap
  correctedData : Option Fmap
  categoryDetection : CategoryDetection
  isVerified : Str
  deriving DecidableEq, Repr

/-! ### Correction staging (src/lambda_handler.py:3030-3079)

When the turn is classified `document_correction_provided`, every parsed
raw correction value is cleaned of trailing filler phrases and re-cased to
the casing style of the original extracted value, then the result is stored
in `correctedData` (NOT merged into `extractedData`) and `isVerified` is set
to `'correcting'`. -/

/-- The filler-phrase word sequences removed by
    `re.sub(r"\b(others?|the rest)( are| is)?( all)? (correct|ok|okay|right)\b", ...)`,
    expanded as token sequences over the value's whitespace-split words. -/
def fillerHeads : List (List Str) :=
  [[str "others"], [str "other"], [str "the", str "rest"]]

def fillerMids : List (List Str) :=
  [[], [str "are"], [str "is"]]

def fillerAlls : List (List Str) :=
  [[], [str "all"]]

def fillerTails : List Str :=
  [str "correct", str "ok", str "okay", str "right"]

/-- Does the word list start with one of the filler phrases? If so, return
    the number of words consumed. -/
def fillerMatch (ws : List Str) : Option Nat :=
  (fillerHeads.flatMap (fun h => fillerMids.flatMap (fun m =>
    fillerAlls.map (fun a => h ++ m ++ a)))).foldr
    (fun pre acc =>
      match acc with
      | some n => some n
      | none =>
        let lws := ws.map pyLower
        if pre.isPrefixOf lws then
          match lws.drop pre.length with
          | t :: _ => if fillerTails.contains t then some (pre.length + 1) else none
          | [] => none
        else none)
    none

/-- Remove the filler phrases from a value (token-level model of the
    `re.sub` at src/lambda_handler.py:3045) and re-join with single spaces,
    then strip. -/
def stripFillerFuel : Nat → List Str → List Str
  | 0, _ => []
  | _, [] => []
  | fuel + 1, w :: rest =>
    match fillerMatch (w :: rest) with
    | some n => stripFillerFuel fuel ((w :: rest).drop (max n 1))
    | none => w :: stripFillerFuel fuel rest

def stripFiller (ws : List Str) : List Str := stripFillerFuel ws.length ws

/-- Re-join words with single spaces. -/
def joinWords : List Str → Str
  | [] => []
  | [w] => w
  | w :: rest => w ++ ' ' :: joinWords rest

/-- The value cleaning at src/lambda_handler.py:3044-3046:
    strip filler phrases like "others correct", then `strip()`. -/
def cleanCorrectionValue (v : Str) : Str :=
  pyStrip (joinWords (stripFiller (pySplitWs v)))

/-- The casing propagation at src/lambda_handler.py:3047-3053: if the
    original value is all-caps / all-lowercase / title-case, the cleaned
    replacement is re-cased the same way. -/
def applyCasing (original cleaned : Str) : Str :=
  if ¬ original.isEmpty && pyIsUpper original then pyUpper cleaned
  else if ¬ original.isEmpty && pyIsLower original then pyLower cleaned
  else if ¬ original.isEmpty && pyIsTitle original then pyTitle cleaned
  else cleaned

/-- The staged corrections map built from the raw parsed corrections
    (`corrections_made` at src/lambda_handler.py:3041-3054). -/
def stageValues (currentData : Fmap) (rawCorrections : Fmap) : Fmap :=
  rawCorrections.map (fun p =>
    let original := (currentData.get p.1).getD []
    (p.1, applyCasing original (cleanCorrectionValue p.2)))

/-- Apply the correction-staging update to a document entry
    (src/lambda_handler.py:3057-3068): store the cleaned, re-cased values in
    `correctedData`, leave `extractedData` untouched, mark `correcting`. -/
def stageCorrections (doc : DocEntry) (rawCorrections : Fmap) : DocEntry :=
  if (stageValues doc.extractedData rawCorrections).isEmpty then doc
  else
    { doc with
      correctedData := some (stageValues doc.extractedData rawCorrections)
      isVerified := str "correcting" }

/-! ### Verified-commit (src/lambda_handler.py:2846-2861)

On a `document_verified` turn, the pending `correctedData` (if any) is
merged field by field into `extractedData` in one `$set`, `isVerified`
becomes `'verified'`, and `correctedData` is `$unset`. -/

def commitVerification (doc : DocEntry) : DocEntry :=
  let pending := doc.correctedData.getD []
  { doc with
    extractedData := doc.extractedData.merge pending
    correctedData := none
    isVerified := str "verified" }

end MyGovHub

namespace MyGovHub

/-! ### `_parse_document_corrections` (src/lambda_handler.py:1459-1577)

The free-text correction parser. The message is whitespace-normalized,
split into segments on `[\n;,]+` runs and the word `and`, and each segment
is matched against the ordered pattern templates; field tokens are resolved
against existing keys, then a synonym table, then substring containment.
After `collapseWs` every whitespace run is a single space, so the `\s+` /
`\s*` parts of the source regexes are modelled as single spaces. -/

/-- Characters of the regex class `[A-Za-z_ ]` (the field token class). -/
def isFieldChar (c : Char) : Bool := c.isAlpha || c = '_' || c = ' '

/-- Python word characters (`\w`), for `\b` boundaries. -/
def isWordChar (c : Char) : Bool := c.isAlphanum || c = '_'

/-- Segment split `re.split(r"[\n;,]+|\band\b", message, IGNORECASE)`.
    `acc` is the current segment, reversed. Empty segments may appear; the
    caller skips them, like the source skips blank segments. -/
def segDelim (c : Char) : Bool := c = '\n' || c = ';' || c = ','

def splitSegsAux : Str → Str → List Str
  | acc, [] => [acc.reverse]
  | acc, c :: c2 :: c3 :: rest' =>
    if segDelim c then
      acc.reverse :: splitSegsAux [] ((c2 :: c3 :: rest').dropWhile segDelim)
    else if c.toLower = 'a' && c2.toLower = 'n' && c3.toLower = 'd' &&
        (acc.head?.map isWordChar).getD false = false &&
        (rest'.head?.map isWordChar).getD false = false then
      acc.reverse :: splitSegsAux [] rest'
    else
      splitSegsAux (c :: acc) (c2 :: c3 :: rest')
  | acc, c :: rest =>
    if segDelim c then
      acc.reverse :: splitSegsAux [] (rest.dropWhile segDelim)
    else
      splitSegsAux (c :: acc) rest
termination_by _ s => s.length
decreasing_by
  all_goals first
    | exact Nat.lt_succ_of_le (dropWhile_len_le _ _)
    | (simp; omega)
    | simp

def splitSegs (s : Str) : List Str := splitSegsAux [] s

/-- The synonym table (src/lambda_handler.py:1489-1497). -/
def synonyms : List (Str × List Str) :=
  [(str "full_name", [str "full name", str "name", str "nama"]),
   (str "userId", [str "ic", str "ic number", str "id number", str "id",
                   str "userid", str "identity card"]),
   (str "gender", [str "gender", str "sex", str "jantina"]),
   (str "address", [str "address", str "alamat", str "location"]),
   (str "licenses_number", [str "license", str "license number", str "lesen"]),
   (str "account_number", [str "account", str "account number"]),
   (str "invoice_number", [str "invoice", str "invoice number"])]

/-- `synonym_to_field` reverse lookup. -/
def synonymToField (w : Str) : Option Str :=
  (synonyms.find? (fun p => p.2.contains w)).map Prod.fst

/-- `resolve_field` (src/lambda_handler.py:1506-1524). -/
def resolveField (currentData : Fmap) (token : Str) : Option Str :=
  let t := pyStripChars [':', ' '] (pyLower token)
  match currentData.keys.find? (fun k => t = pyLower k) with
  | some k => some k
  | none =>
    match synonymToField t with
    | some mapped =>
      match currentData.keys.find? (fun k => pyLower k = pyLower mapped) with
      | some k => some k
      | none => some mapped
    | none =>
      currentData.keys.find? (fun k => strIn t (pyLower k) || strIn (pyLower k) t)

/-- First index at which `needle` occurs in `haystack` (`str.find`). -/
def findInfixIdx (needle haystack : Str) : Option Nat :=
  if needle.isPrefixOf haystack then some 0
  else
    match haystack with
    | [] => none
    | _ :: rest => (findInfixIdx needle rest).map (· + 1)

/-- Last index at which `needle` occurs (used for greedy-field keyword
    patterns: the regex engine's greedy field group selects the rightmost
    viable keyword occurrence). -/
def findLastInfixIdx (needle haystack : Str) : Option Nat :=
  (findInfixIdx needle.reverse haystack.reverse).map
    (fun i => haystack.length - needle.length - i)

/-- A keyword split `^(field)[ ]kw[ ](value)$` with the regex's greedy field
    group: rightmost occurrence of `' ' ++ kw ++ ' '` whose prefix is a
    legal field token (`[A-Za-z_ ]{2,30}` up to trailing blanks) and whose
    suffix is non-empty. Keywords are matched case-insensitively. -/
def kwSplit (kw : Str) (seg : Str) : Option (Str × Str) :=
  let needle := ' ' :: kw ++ [' ']
  match findLastInfixIdx needle (pyLower seg) with
  | none => none
  | some i =>
    let pre := seg.take i
    let post := seg.drop (i + needle.length)
    if 2 ≤ pre.length && (pyRstripChars [' '] pre).length ≤ 30 &&
        pre.all isFieldChar && ¬ post.isEmpty then
      some (pyStrip pre, pyStrip post)
    else none

/-- Pattern 1: `^([A-Za-z_ ]{2,30})\s*[:=-]\s*(.+)$` — split at the first
    separator character. -/
def sepSplit (seg : Str) : Option (Str × Str) :=
  match findInfixIdx [':'] seg, findInfixIdx ['='] seg, findInfixIdx ['-'] seg with
  | none, none, none => none
  | i1, i2, i3 =>
    let i := min ((i1.getD seg.length)) (min (i2.getD seg.length) (i3.getD seg.length))
    let pre := seg.take i
    let post := pyLstripChars [' '] (seg.drop (i + 1))
    if 2 ≤ pre.length && (pyRstripChars [' '] pre).length ≤ 30 &&
        pre.all isFieldChar && ¬ post.isEmpty then
      some (pyStrip pre, pyStrip post)
    else none

/-- Pattern 5: `^(?:fix|change|update)\s+(field)\s+(?:to|as)\s+(value)$`. -/
def fixSplit (seg : Str) : Option (Str × Str) :=
  let tryLead (lead : Str) : Option (Str × Str) :=
    if pyStartsWith (lead ++ [' ']) (pyLower seg) then
      let rest := seg.drop (lead.length + 1)
      match kwSplit (str "to") rest with
      | some fv => some fv
      | none => kwSplit (str "as") rest
    else none
  match tryLead (str "fix") with
  | some fv => some fv
  | none =>
    match tryLead (str "change") with
    | some fv => some fv
    | none => tryLead (str "update")

/-- The ordered pattern templates (src/lambda_handler.py:1529-1540).
    Pattern 4 (`wrong, field is value`) is subsumed by pattern 3 after the
    leading-qualifier strip and is therefore represented by pattern 3. -/
def patternMatch (seg : Str) : Option (Str × Str) :=
  match sepSplit seg with
  | some fv => some fv
  | none =>
    match kwSplit (str "should be") seg with
    | some fv => some fv
    | none =>
      match kwSplit (str "is") seg with
      | some fv => some fv
      | none => fixSplit seg

/-- Strip the leading qualifier `^(wrong|no|not|incorrect)[, ]+`. -/
def stripQualifier (seg : Str) : Str :=
  let tryQ (q : Str) : Option Str :=
    if pyStartsWith q (pyLower seg) then
      let rest := seg.drop q.length
      if (rest.head?.map (fun c => c = ',' || c = ' ')).getD false then
        some (rest.dropWhile (fun c => c = ',' || c = ' '))
      else none
    else none
  match tryQ (str "wrong") with
  | some r => r
  | none =>
    match tryQ (str "not") with
    | some r => r
    | none =>
      match tryQ (str "no") with
      | some r => r
      | none => (tryQ (str "incorrect")).getD seg

/-- The fallback heuristic (src/lambda_handler.py:1561-1571): for each
    existing field key and each of its synonyms, look for `"<syn> is "` in
    the lowercased segment and take everything after it. Only the first
    matching synonym of a key fires (the inner `break`). -/
def heuristicCorrections (currentData : Fmap) (seg : Str) (acc : Fmap) : Fmap :=
  currentData.keys.foldl
    (fun acc k =>
      let syns := k :: ((synonyms.find? (fun p => p.1 = k)).map Prod.snd).getD []
      let hit := syns.foldl
        (fun (st : Option Str) syn =>
          match st with
          | some v => some v
          | none =>
            let needle := pyLower syn ++ (str " is ")
            match findInfixIdx needle (pyLower seg) with
            | none => none
            | some idx =>
              let val := pyStrip (seg.drop (idx + needle.length))
              if val.isEmpty then none else some val)
        none
      match hit with
      | some v => acc.set k v
      | none => acc)
    acc

/-- Process one segment (the body of the `for raw_segment in segments` loop,
    src/lambda_handler.py:1542-1571). -/
def parseSegment (currentData : Fmap) (acc : Fmap) (rawSegment : Str) : Fmap :=
  let seg0 := pyStrip rawSegment
  if seg0.isEmpty then acc
  else
    let seg := stripQualifier seg0
    match patternMatch seg with
    | some (fieldTok, value) =>
      match resolveField currentData fieldTok with
      | some resolved => if value.isEmpty then acc else acc.set resolved value
      | none => acc
    | none => heuristicCorrections currentData seg acc

/-- `_parse_document_corrections` (src/lambda_handler.py:1459-1577). -/
def parseDocumentCorrections (message : Str) (currentData : Fmap) : Fmap :=
  if message.isEmpty || currentData.isEmpty then []
  else
    let msg := collapseWs (pyStrip message)
    let segments := splitSegs msg
    let corrections := segments.foldl (parseSegment currentData) []
    corrections.map (fun p => (p.1, pyStrip (collapseWs p.2)))

end MyGovHub

namespace MyGovHub

/-! ### Session record (spec §3; MongoDB session document)

The MongoDB store is modelled as the session document itself. The reserved
`context.*` keys the orchestrator uses are individual fields; `update_one`
with `$set`/`$unset`/`$push` becomes a function on this record.
`timeoutAwaitingChoice` distinguishes an absent key (`none`) from a stored
boolean (`some b`), since the handler both `$set`s it to `False` and
`$unset`s it. -/

/-- One entry of the `messages` array. Texts of templated replies are
    rendered by `renderReply` below. -/
structure Msg where
  role : Str
  text : Str
  intent : Option Str
  deriving DecidableEq, Repr

/-- A record of the `licenses` collection, reduced to the fields the
    orchestrator reads (`status`, `valid_to`, `license_number`). -/
structure LicenseRec where
  status : Str
  validTo : Str
  licenseNumber : Str
  deriving DecidableEq, Repr

structure Session where
  status : Str
  service : Str
  messages : List Msg
  /-- `context.timeout_awaiting_choice`: absent / stored boolean. -/
  timeoutAwaitingChoice : Option Bool
  /-- The `context.document_*` entries, in context-key iteration order. -/
  docs : List (Str × DocEntry)
  /-- `context.<service>_workflow_state` values, keyed by service name. -/
  workflow : Fmap
  /-- `context.renew_license_duration_years`. -/
  durationYears : Option Nat
  /-- `context.renew_license_renew_fee` (RM; always `30 * years`, so `Nat`). -/
  renewFee : Option Nat
  /-- `context.selected_tnb_account`. -/
  selectedTnbAccount : Option Str
  /-- services with `context.<service>_messages_cleared = True`. -/
  messagesCleared : List Str
  /-- `context.redirect_to_end_connection`. -/
  redirectToEnd : Bool
  /-- `context.database_license`. -/
  databaseLicense : Option LicenseRec
  /-- `context.database_bills` (bill amounts in RM of the unpaid bills). -/
  databaseBills : Option (List Nat)
  /-- `context.pay_tnb_bill_total_amount`. -/
  tnbTotalAmount : Option Nat
  /-- `context.pay_tnb_bill_bill_count`. -/
  tnbBillCount : Option Nat
  deriving DecidableEq, Repr

/-- `$set context.<key>.<field>` on one document entry. -/
def Session.updateDoc (s : Session) (key : Str) (f : DocEntry → DocEntry) : Session :=
  { s with docs := s.docs.map (fun p => if p.1 = key then (p.1, f p.2) else p) }

def Session.getDoc (s : Session) (key : Str) : Option DocEntry :=
  (s.docs.find? (fun p => p.1 = key)).map Prod.snd

def Session.setWorkflow (s : Session) (svc state : Str) : Session :=
  { s with workflow := s.workflow.set svc state }

def Session.getWorkflow (s : Session) (svc : Str) : Option Str :=
  s.workflow.get svc

/-! ### Oracles for the external collaborators

Each Bedrock call site gets an `Except Unit Str` (the raw model text, or a
transport failure); the reply-generation call carries its error string
(`str(model_exc)`). Store `$push` failures for the two persistence pushes
are booleans; the handler swallows every other store-write failure
(`try/except pass`), so those writes are modelled as succeeding. -/

structure Oracles where
  transcriptionAI : Except Unit Str
  termIntentAI : Except Unit Str
  rejIntentAI : Except Unit Str
  affirmativeAI : Except Unit Str
  negativeAI : Except Unit Str
  durationAI : Except Unit Str
  accountAI : Except Unit Str
  serviceIntentAI : Except Unit Str
  serviceIntentAI2 : Except Unit Str
  replyAI : Except Str Str
  licenseLookup : Except Unit (Option LicenseRec)
  billsLookup : Except Unit (List Nat)
  dbNameSet : Bool
  /-- elapsed-time predicate of the 15-minute timeout check. -/
  sessionTimedOut : Bool
  pushUserFails : Bool
  pushAssistantFails : Bool
  deriving Repr

/-! ### Short-text classifiers (closures inside `lambda_handler`) -/

/-- `_detect_intent_with_ai` (src/lambda_handler.py:2316-2359). -/
def detectIntentWithAI (o : Except Unit Str) : Str :=
  match o with
  | .error _ => str "unclear"
  | .ok resp =>
    let ai := pyUpper (pyStrip resp)
    if strIn (str "SESSION_TERMINATION") ai then str "session_termination"
    else if strIn (str "AFFIRMATIVE") ai then str "affirmative"
    else if strIn (str "NEGATIVE") ai then str "negative"
    else if strIn (str "DOCUMENT_REJECTION") ai then str "document_rejection"
    else str "unclear"

def punctChars : List Char := ['.', ',', '!', '?', ';', ':']

def affTokens : List Str :=
  [str "yes", str "ya", str "y", str "ok", str "okay", str "true", str "benar",
   str "sure", str "correct", str "accurate", str "looks good", str "betul",
   str "ya betul", str "setuju", str "confirm"]

/-- `_is_affirmative` (src/lambda_handler.py:1996-2084). -/
def isAffirmative (o : Except Unit Str) (msg : Str) : Bool :=
  let cleaned := pyLower (pyStrip msg)
  let cleanedNoPunct := pyRstripChars punctChars cleaned
  if cleanedNoPunct.length ≤ 15 && affTokens.contains cleanedNoPunct then true
  else if (pySplitWs (cleanedNoPunct.filter (fun c => c ≠ '!'))).all
      (fun t => affTokens.contains t) then true
  else if 5 < cleaned.length && cleaned.length < 50 then
    match o with
    | .ok resp => strIn (str "AFFIRMATIVE") (pyUpper (pyStrip resp))
    | .error _ => affTokens.contains cleanedNoPunct
  else false

def negTokens : List Str :=
  [str "no", str "nope", str "nah", str "not", str "cancel", str "cancelled",
   str "stop", str "quit", str "exit", str "not interested", str "no thanks",
   str "no thank you", str "decline", str "reject", str "tidak", str "tak",
   str "tak mahu", str "tak nak", str "batal", str "batalkan"]

/-- `_is_negative` (src/lambda_handler.py:2086-2179). -/
def isNegative (o : Except Unit Str) (msg : Str) : Bool :=
  let cleaned := pyLower (pyStrip msg)
  let cleanedNoPunct := pyRstripChars punctChars cleaned
  if cleanedNoPunct.length ≤ 15 && negTokens.contains cleanedNoPunct then true
  else if (pySplitWs (cleanedNoPunct.filter (fun c => c ≠ '!'))).all
      (fun t => t.length ≤ 1 || negTokens.contains t) then true
  else if [str "no", str "not", str "cancel", str "stop", str "tidak", str "tak",
      str "batal"].any
      (fun w => pyStartsWith (w ++ [' ']) cleanedNoPunct || cleanedNoPunct = w) then true
  else if [str "not interested", str "no thanks", str "no thank you",
      str "tak mahu", str "tak nak"].any (fun p => strIn p cleaned) then true
  else if 5 < cleaned.length && cleaned.length < 50 then
    match o with
    | .ok resp => strIn (str "NEGATIVE") (pyUpper (pyStrip resp))
    | .error _ => negTokens.contains cleanedNoPunct
  else false

def rejectionTokens : List Str :=
  [str "no", str "incorrect", str "wrong", str "not correct", str "not accurate",
   str "inaccurate", str "false", str "mistake", str "error", str "invalid",
   str "salah", str "tidak betul", str "tidak tepat"]

/-- `_is_document_rejection` (src/lambda_handler.py:2289-2314). -/
def isDocumentRejection (o : Except Unit Str) (msg : Str) : Bool :=
  let cleaned := pyLower (pyStrip msg)
  if rejectionTokens.contains cleaned then true
  else if [str "not correct", str "not accurate", str "not right",
      str "tidak betul", str "tidak tepat"].any (fun p => strIn p cleaned) then true
  else if 5 < cleaned.length && cleaned.length < 50 then
    detectIntentWithAI o = str "document_rejection"
  else false

def terminationTokens : List Str :=
  [str "exit", str "quit", str "end", str "stop", str "cancel", str "bye",
   str "goodbye", str "close", str "terminate", str "finish", str "done",
   str "logout", str "log out", str "sign out", str "reset", str "restart",
   str "complete", str "keluar", str "berhenti", str "tamat", str "selesai",
   str "tutup", str "habis", str "ulang"]

/-- `_is_session_termination_request` (src/lambda_handler.py:2361-2398). -/
def isSessionTermination (o : Except Unit Str) (msg : Str) : Bool :=
  if detectIntentWithAI o = str "session_termination" then true
  else
    let cleaned := pyLower (pyStrip msg)
    if terminationTokens.contains cleaned then true
    else if [str "exit", str "quit", str "end", str "stop", str "cancel",
        str "close", str "reset", str "keluar", str "berhenti", str "tamat"].any
        (fun w => pyStartsWith (w ++ [' ']) cleaned || cleaned = w) then true
    else if [str "log out", str "sign out", str "end session", str "close session",
        str "reset session", str "restart session", str "i want to exit",
        str "i want to quit", str "i want to reset"].any
        (fun p => strIn p cleaned) then true
    else false

/-- `_has_field_pattern` (src/lambda_handler.py:1989-1994); the caller
    passes the message padded with one space on each side. -/
def hasFieldPattern (msg : Str) : Bool :=
  [str "name", str "full name", str "ic", str "ic number", str "gender",
   str "address", str "license", str "account", str "invoice"].any
    (fun syn => strIn (' ' :: syn ++ [' ']) msg || pyStartsWith (syn ++ [' ']) msg)

/-- `_detect_service_intent` (src/lambda_handler.py:752-833). -/
def detectServiceIntent (o : Except Unit Str) (messageLower : Str) : Option Str :=
  if messageLower.isEmpty then none
  else
    match o with
    | .ok resp =>
      let ai := pyUpper (pyStrip resp)
      if strIn (str "LICENSE_RENEWAL") ai then some (str "renew_license")
      else if strIn (str "TNB_BILL_PAYMENT") ai then some (str "pay_tnb_bill")
      else none
    | .error _ =>
      if [str "renew", str "renewal", str "renewing"].any
            (fun k => strIn k messageLower) &&
          [str "license", str "driving license", str "lesen",
           str "driver license"].any (fun k => strIn k messageLower) then
        some (str "renew_license")
      else if [str "pay", str "payment", str "bayar"].any
            (fun k => strIn k messageLower) &&
          [str "tnb", str "electric", str "electricity", str "bill",
           str "bil elektrik"].any (fun k => strIn k messageLower) then
        some (str "pay_tnb_bill")
      else none

/-- `_detect_account_selection` (src/lambda_handler.py:2181-2287). -/
def detectAccountSelection (o : Except Unit Str) (msg : Str)
    (accounts : List Str) : Option Str :=
  if msg.isEmpty || accounts.isEmpty then none
  else
    let msgClean := pyStrip msg
    if ¬ msgClean.isEmpty && msgClean.all (fun c => c.isDigit) then
      let n := msgClean.foldl (fun acc c => acc * 10 + (c.toNat - '0'.toNat)) 0
      if 1 ≤ n && n ≤ accounts.length then accounts.get? (n - 1)
      else accounts.find? (fun a => strIn a msgClean)
    else
      match accounts.find? (fun a => strIn a msgClean) with
      | some a => some a
      | none =>
        match o with
        | .error _ => none
        | .ok resp =>
          let r := pyStrip resp
          if ¬ r.isEmpty && r ≠ str "UNCLEAR" then
            accounts.find? (fun a => a = r || strIn a r)
          else none

/-- `_service_requirements_met` (src/lambda_handler.py:184-244). -/
def serviceRequirementsMet (svc : Str) (snap : Session) (ekyc : List Str) : Bool :=
  if svc.isEmpty then false
  else if svc = str "pay_tnb_bill" && ¬ ekyc.isEmpty then true
  else if snap.docs.isEmpty then false
  else
    snap.docs.any (fun p =>
      let doc := p.2
      if doc.isVerified ≠ str "verified" then false
      else
        let field (k : String) : Bool :=
          match doc.extractedData.get (str k) with
          | some v => ¬ v.isEmpty
          | none => false
        let cat := doc.categoryDetection.detected_category
        if svc = str "renew_license" then
          field "full_name" && field "userId" &&
            [str "idcard", str "license", str "license-front"].contains cat
        else if svc = str "pay_tnb_bill" then
          field "account_number" && field "invoice_number" && cat = str "tnb"
        else false)

/-- `int(ai_response)` on a stripped string: digits only (a sign would in
    any case fall outside `1..10` and yield the same `None` outcome). -/
def pyParseNat (s : Str) : Option Nat :=
  if ¬ s.isEmpty && s.all (fun c => c.isDigit) then
    some (s.foldl (fun acc c => acc * 10 + (c.toNat - '0'.toNat)) 0)
  else none

/-- The regex fallback `re.search(r"\b(\d{1,2})\b", message.strip())`:
    the first whole word-character token consisting of one or two digits. -/
def findNumToken (s : Str) : Option Nat :=
  ((s.splitOnP (fun c => ¬ isWordChar c)).filter (fun t => ¬ t.isEmpty)).foldl
    (fun acc t =>
      match acc with
      | some n => some n
      | none =>
        if t.length ≤ 2 && t.all (fun c => c.isDigit) then pyParseNat t else none)
    none

/-- The duration parsing at src/lambda_handler.py:3248-3338: the Bedrock
    parser (range-checked), with the regex fallback when Bedrock fails. -/
def parseDurationYears (o : Except Unit Str) (message : Str) : Option Nat :=
  match o with
  | .ok resp =>
    let r := pyStrip resp
    if pyUpper r = str "INVALID" then none
    else
      match pyParseNat r with
      | some n => if 1 ≤ n && n ≤ 10 then some n else none
      | none => none
  | .error _ =>
    match findNumToken (pyStrip message) with
    | some n => if 1 ≤ n && n ≤ 10 then some n else none
    | none => none

end MyGovHub

namespace MyGovHub

/-! ### Replies

The handler's user-visible texts are long literal templates; the embedding
represents each template by a constructor (carrying the data interpolated
into it) and keeps raw text only where the handler manipulates it (model
output, persisted message content). -/

/-- Outputs of `_build_service_next_step_message`
    (src/lambda_handler.py:247-750). -/
inductive ServiceMsg where
  | dbNameMissing
  | licenseRetrievalError
  | noLicenseRecord
  | suspended (licenseNumber : Str)
  | askDuration (validTo : Str)
  | paymentConfirmation (years fee : Nat)
  | renewalComplete (years fee : Nat)
  | licenseShown (rec : LicenseRec)
  | tnbDbMissing
  | noVerifiedAccount
  | billsRetrievalError
  | noOutstandingBills (account : Str)
  | tnbPaymentComplete (count total : Nat)
  | tnbBillsShown (count total : Nat) (account : Str)
  | todoPlaceholder
  deriving DecidableEq, Repr

/-- The deterministic templated replies emitted without a model call. -/
inductive DirectTag where
  | tnbAccountSelection (accounts : List Str)
  | tnbUploadPrompt
  | idcardServices
  | confirmingEnd
  | endConnection
  | continueServices
  | invalidDurationFormat
  | serviceSelectionPrompt
  deriving DecidableEq, Repr

/-- The prompts sent to the completion service, by originating branch. -/
inductive PromptTag where
  | renewLicenseIntent
  | documentAnalysis
  | docProcessingFailed
  | verifiedTnbSuggest
  | verifiedLicenseSuggest
  | verifiedGenericSuggest
  | verifiedActiveService
  | correctionNeeded
  | correctionProvidedPreview
  | correctionRetrievalError
  | forceEnd
  | genericContext
  deriving DecidableEq, Repr

inductive Reply where
  | timeoutNotice
  | archivedRestart
  | transcriptionFailed (prev : Option Str)
  | resumePrevious (text : Str)
  | resumeGeneric
  | restartConfirmed
  | timeoutClarification
  | blurNotice
  | identityMismatch (masked : Str)
  | wrongDocCategory (category service : Str)
  | generated (text : Str)
  | modelErrorFallback
  | direct (tag : DirectTag)
  | serviceMessage (m : ServiceMsg)
  deriving DecidableEq, Repr

/-- The persisted text of a reply. Behaviour depends on persisted texts only
    through the two prefix checks `startswith('ERROR:')` (error records) and
    the transcription banner, so templates are rendered as distinct marker
    strings preserving those prefixes. -/
def renderReply : Reply → Str
  | .generated t => t
  | .modelErrorFallback => str "ERROR: assistant failed to respond. See modelError in response."
  | .transcriptionFailed _ => str "[!] **Transcription Failed** (banner)"
  | .resumePrevious t => t
  | r => str "TEMPLATE " ++ str (toString (repr r))

/-- Strip a leaked role prefix from model output
    (src/lambda_handler.py:4214-4223): the first matching prefix is removed
    and the remainder stripped. -/
def stripRolePrefix (t : Str) : Str :=
  let prefixes := [str "ASSISTANT: ", str "SYSTEM: ", str "USER: ", str "AI: ",
    str "BOT: ", str "Assistant: ", str "System: ", str "User: ", str "Ai: ",
    str "Bot: "]
  match prefixes.find? (fun p => pyStartsWith p t) with
  | some p => pyStrip (t.drop p.length)
  | none => t

/-- Masked identity representation (src/lambda_handler.py:3652-3655). -/
def maskIc (norm : Str) : Str :=
  if 12 ≤ norm.length then norm.take 4 ++ str "******" ++ norm.drop (norm.length - 2)
  else norm

/-! ### `_build_service_next_step_message` (src/lambda_handler.py:247-750)

Returns the updated store and the service message. All its store writes are
`$set`s of context fields or workflow states; it never touches `messages`
or `status`. -/

def buildServiceNextStep (svc : Str) (snap st : Session) (o : Oracles) :
    Session × ServiceMsg :=
  if svc = str "renew_license" then
    if ¬ o.dbNameSet then (st, .dbNameMissing)
    else
      match o.licenseLookup with
      | .error _ => (st, .licenseRetrievalError)
      | .ok none => (st, .noLicenseRecord)
      | .ok (some rec) =>
        let st1 := { st with databaseLicense := some rec }
        let wf := st1.getWorkflow svc
        if rec.status = str "suspended" then (st1, .suspended rec.licenseNumber)
        else if wf = some (str "license_confirmed") then
          (st1.setWorkflow svc (str "asking_duration"), .askDuration rec.validTo)
        else if wf = some (str "confirming_license_payment_details") then
          (st1, .paymentConfirmation (st1.durationYears.getD 1) (st1.renewFee.getD 30))
        else if wf = some (str "license_payment_confirmed") then
          ({ st1 with redirectToEnd := true },
           .renewalComplete (st1.durationYears.getD 1) (st1.renewFee.getD 30))
        else
          (st1.setWorkflow svc (str "license_shown"), .licenseShown rec)
  else if svc = str "pay_tnb_bill" then
    if ¬ o.dbNameSet then (st, .tnbDbMissing)
    else
      let account :=
        match st.selectedTnbAccount with
        | some a => some a
        | none =>
          (snap.docs.filterMap (fun p =>
            if p.2.isVerified = str "verified" then
              match p.2.extractedData.get (str "account_number") with
              | some v => if v.isEmpty then none else some v
              | none => none
            else none)).head?
      match account with
      | none => (st, .noVerifiedAccount)
      | some acct =>
        let wf := st.getWorkflow svc
        match o.billsLookup with
        | .error _ => (st, .billsRetrievalError)
        | .ok bills =>
          let st1 := { st with databaseBills := some bills }
          if bills.isEmpty then
            ({ st1 with redirectToEnd := true }, .noOutstandingBills acct)
          else if wf = some (str "tnb_bills_confirmed") then
            (st1, .tnbPaymentComplete (st1.tnbBillCount.getD 0) (st1.tnbTotalAmount.getD 0))
          else
            let st2 := st1.setWorkflow svc (str "tnb_bills_shown")
            let total := bills.foldl (· + ·) 0
            ({ st2 with tnbTotalAmount := some total, tnbBillCount := some bills.length },
             .tnbBillsShown bills.length total acct)
  else (st, .todoPlaceholder)

/-! ### Attachments and OCR -/

structure Attachment where
  name : Str
  hasUrl : Bool
  deriving DecidableEq, Repr

/-- The extraction-service result, reduced to the fields the orchestrator
    branches on (`extracted_data`, `category_detection.detected_category`,
    `blur_analysis.overall_assessment.is_blurry`). `none` models an
    extraction failure (`_process_document_attachment` returning `None`). -/
structure OcrResult where
  extracted_data : Fmap
  detected_category : Str
  isBlurry : Bool
  deriving DecidableEq, Repr

/-- `_save_document_context_to_session` (src/lambda_handler.py:1293-1340):
    store the extracted data under `context.document_<sanitizedName>` with
    `isVerified = 'unverified'`. A dotted filename is sanitized; the key is
    set (added or overwritten). -/
def sanitizeName (name : Str) : Str := name.map (fun c => if c = '.' then '_' else c)

def saveDocumentContext (st : Session) (ocr : OcrResult) (name : Str) : Session :=
  let key := str "document_" ++ sanitizeName name
  let entry : DocEntry :=
    { extractedData := ocr.extracted_data
      correctedData := none
      categoryDetection := { detected_category := ocr.detected_category }
      isVerified := str "unverified" }
  if (st.docs.find? (fun p => p.1 = key)).isSome then
    { st with docs := st.docs.map (fun p => if p.1 = key then (key, entry) else p) }
  else
    { st with docs := st.docs ++ [(key, entry)] }

end MyGovHub

namespace MyGovHub

/-! ### The turn pipeline (`lambda_handler`, src/lambda_handler.py:1580-4398)

The handler is modelled for turns on an existing (non-sentinel) session:
`processTurn` takes the loaded session document, the request fields and the
oracles, and returns the final persisted session plus the HTTP response.
`snap` tracks the handler's `session_doc` python variable (a point-in-time
snapshot that is only refreshed where the source re-fetches), `st` the
store's current contents. -/

/-- Where the response's `sessionId` points (src/lambda_handler.py:4371). -/
inductive SessOut where
  | same
  | sessionEnd
  | newSessionTok
  | freshId
  deriving DecidableEq, Repr

structure TurnResponse where
  httpStatus : Nat
  reply : Option Reply
  intentType : Option Str
  modelError : Option Str
  sessionOut : SessOut
  deriving DecidableEq, Repr

abbrev TurnOutcome := Session × TurnResponse

def ok200 (st : Session) (r : Reply) (intent : Option Str)
    (out : SessOut := .same) : TurnOutcome :=
  (st, { httpStatus := 200, reply := some r, intentType := intent,
         modelError := none, sessionOut := out })

structure Inp where
  userId : Str
  message : Str
  attachment : Option Attachment
  /-- `ekyc.tnb_account_no`; `none` models an absent/empty `ekyc` object. -/
  ekyc : Option (List Str)
  /-- the document-extraction service's response for the uploaded
      attachment (`none` models an extraction failure). -/
  ocrResult : Option OcrResult
  deriving Repr

def Inp.ekycAccounts (inp : Inp) : List Str := inp.ekyc.getD []

structure Flow where
  st : Session
  snap : Session
  intent : Option Str
  pendingKey : Option Str
  pendingDoc : Option DocEntry
  serviceIntent : Option Str
  activeService : Option Str
  ready : Bool
  justReady : Bool
  ocr : Option OcrResult
  deriving Repr

/-- Session-timeout check at load (src/lambda_handler.py:1694-1788) and the
    archived-session restart signal (src/lambda_handler.py:1830-1846).
    `o.sessionTimedOut` is the outcome of the elapsed-time comparison. -/
def loadPhase (o : Oracles) (s : Session) : Except TurnOutcome Session := do
  if ¬ (s.timeoutAwaitingChoice.getD false) && o.sessionTimedOut then
    throw (({ s with timeoutAwaitingChoice := some true } : Session),
           { httpStatus := 200, reply := some .timeoutNotice,
             intentType := some (str "session_timeout_choice"),
             modelError := none, sessionOut := .same })
  else if s.status = str "archived" then
    throw (s, { httpStatus := 200, reply := some .archivedRestart,
                intentType := none, modelError := none,
                sessionOut := .newSessionTok })
  else
    pure s

/-- Transcription-failure detection (src/lambda_handler.py:1858-1942). -/
def transcriptionFailureMessages : List Str :=
  [str "Transcription failed.",
   str "Transcription completed but text retrieval failed.",
   str "Speech recognition error", str "Audio processing failed",
   str "Could not process audio", str "Transcription service unavailable"]

def transcriptionIntent (o : Oracles) (message : Str) : Option Str :=
  if (pyStrip message).isEmpty then none
  else
    match o.transcriptionAI with
    | .ok resp =>
      let ai := pyUpper (pyStrip resp)
      if strIn (str "TRANSCRIPTION_FAILED") ai then some (str "transcription_failed")
      else if strIn (str "NORMAL_MESSAGE") ai then none
      else if transcriptionFailureMessages.any
          (fun m => strIn (pyLower m) (pyLower (pyStrip message))) then
        some (str "transcription_failed")
      else none
    | .error _ =>
      if pyStrip message = str "Transcription failed." ||
          pyStrip message = str "Transcription completed but text retrieval failed." then
        some (str "transcription_failed")
      else none

/-- First pending document (src/lambda_handler.py:1949-1963): the first
    `document_*` context entry whose `isVerified` is `unverified` or
    `correcting`. -/
def findPendingDoc (s : Session) : Option (Str × DocEntry) :=
  s.docs.find? (fun p =>
    p.2.isVerified = str "unverified" || p.2.isVerified = str "correcting")

/-- Session-termination check (src/lambda_handler.py:2421-2448): highest
    priority; sets `status = 'cancelled'`, clears `service`, forces the
    `force_end_connection` intent. It does NOT return early. -/
def terminationPhase (inp : Inp) (o : Oracles) (f : Flow) : Flow :=
  if isSessionTermination o.termIntentAI inp.message && inp.attachment.isNone then
    { f with
      st := { f.st with status := str "cancelled", service := [] }
      intent := some (str "force_end_connection") }
  else f

/-- Last usable assistant text (src/lambda_handler.py:2462-2473 and
    2600-2611): newest assistant record whose text does not start with
    `'ERROR:'` (and, for the transcription path, is not itself a
    transcription banner). -/
def lastAssistantText (ms : List Msg) (excludeBanner : Bool) : Option Str :=
  (ms.reverse.filterMap (fun m =>
    if m.role = str "assistant" && ¬ m.text.isEmpty &&
        ¬ pyStartsWith (str "ERROR:") m.text &&
        (¬ excludeBanner || ¬ pyStartsWith (str "[!] **Transcription Failed**") m.text) then
      some m.text
    else none)).head?

/-- Transcription-failure handler (src/lambda_handler.py:2450-2547):
    re-serve the last assistant message under a failure banner, append that
    banner to the log, and return. -/
def transcriptionPhase (f : Flow) : Except TurnOutcome Flow := do
  if f.intent = some (str "transcription_failed") then
    let prev := lastAssistantText f.st.messages true
    let reply := Reply.transcriptionFailed prev
    let st' := { f.st with messages := f.st.messages ++
      [{ role := str "assistant", text := renderReply reply, intent := none }] }
    throw (ok200 st' reply (some (str "transcription_failed")))
  else
    pure f

/-- Timeout-choice handler (src/lambda_handler.py:2549-2783). Note that the
    `timeout_awaiting_choice` flag is `$set` to `False` before the choice is
    interpreted, and the invalid-choice branch returns without restoring it. -/
def timeoutChoicePhase (inp : Inp) (f : Flow) : Except TurnOutcome Flow := do
  if f.snap.timeoutAwaitingChoice.getD false then
    let messageClean := pyLower (pyStrip inp.message)
    let st0 := { f.st with timeoutAwaitingChoice := some false }
    let containsNew := strIn (str "new") messageClean
    let containsContinue := [str "continue", str "resume", str "yes"].any
      (fun w => strIn w messageClean)
    if containsContinue && ¬ containsNew then
      let last := lastAssistantText st0.messages false
      let st1 := { st0 with timeoutAwaitingChoice := none }
      let markerText := match last with
        | some t => t
        | none => renderReply .resumeGeneric
      let st2 := { st1 with messages := st1.messages ++
        [{ role := str "assistant", text := markerText, intent := none }] }
      match last with
      | some t => throw (ok200 st2 (.resumePrevious t) (some (str "resume_previous_context")))
      | none => throw (ok200 st2 .resumeGeneric (some (str "resume_session_generic")))
    else if [str "new", str "fresh", str "start", str "no", str "n", str "2",
        str "restart", str "reset"].contains messageClean || containsNew then
      let st1 := { st0 with status := str "archived", timeoutAwaitingChoice := none }
      throw (ok200 st1 .restartConfirmed (some (str "session_restart_confirmed")) .sessionEnd)
    else
      throw (ok200 st0 .timeoutClarification (some (str "session_timeout_clarification")))
  else
    pure f

/-- Stale-flag cleanup (src/lambda_handler.py:2785-2803): a present but
    falsy `timeout_awaiting_choice` key is `$unset`. -/
def staleFlagPhase (f : Flow) : Flow :=
  if f.snap.timeoutAwaitingChoice.isSome && ¬ (f.snap.timeoutAwaitingChoice.getD false) then
    { f with st := { f.st with timeoutAwaitingChoice := none } }
  else f

end MyGovHub

namespace MyGovHub

/-- Document-verification classification (src/lambda_handler.py:2805-2844):
    rejection, then correction probing, then short-affirmation. These checks
    run whenever a document is pending, and overwrite any earlier intent. -/
def docClassifyPhase (inp : Inp) (o : Oracles) (f : Flow) : Flow :=
  let messageLower := pyLower (pyStrip inp.message)
  match f.pendingKey with
  | none => f
  | some k =>
    if isDocumentRejection o.rejIntentAI inp.message then
      { f with
        intent := some (str "document_correction_needed")
        st := f.st.updateDoc k (fun d => { d with isVerified := str "correcting" }) }
    else
      let currentData := (f.pendingDoc.map (·.extractedData)).getD []
      let probe :=
        if currentData.isEmpty then []
        else parseDocumentCorrections inp.message currentData
      if ¬ probe.isEmpty then
        { f with intent := some (str "document_correction_provided") }
      else if isAffirmative o.affirmativeAI messageLower &&
          ¬ hasFieldPattern (' ' :: messageLower ++ [' ']) then
        { f with intent := some (str "document_verified") }
      else f

/-- Verified-commit and category-gated service auto-binding
    (src/lambda_handler.py:2846-3028): merge pending corrections, mark
    verified, then — when no service is active — bind the service implied by
    the document category (`tnb` / `license*`) and refresh the snapshot.
    `idcard` and unknown categories bind nothing. -/
def commitPhase (f : Flow) : Flow :=
  match f.pendingKey with
  | none => f
  | some k =>
    if f.intent = some (str "document_verified") then
      let st1 := f.st.updateDoc k commitVerification
      if st1.service.isEmpty then
        match st1.getDoc k with
        | some d =>
          let cat := pyLower d.categoryDetection.detected_category
          if cat = str "tnb" then
            let st2 := { st1 with service := str "pay_tnb_bill" }
            { f with st := st2, snap := st2 }
          else if [str "license", str "license-front",
              str "license-back"].contains cat then
            let st2 := { st1 with service := str "renew_license" }
            { f with st := st2, snap := st2 }
          else
            { f with st := st1 }
        | none => { f with st := st1 }
      else
        { f with st := st1 }
    else f

/-- Correction staging (src/lambda_handler.py:3030-3079). -/
def stagingPhase (inp : Inp) (f : Flow) : Flow :=
  match f.pendingKey with
  | none => f
  | some k =>
    if f.intent = some (str "document_correction_provided") then
      let currentData := (f.pendingDoc.map (·.extractedData)).getD []
      let raw := parseDocumentCorrections inp.message currentData
      { f with
        st := f.st.updateDoc k (fun d => stageCorrections d raw)
        pendingDoc := f.pendingDoc.map (fun d => stageCorrections d raw) }
    else f

/-- Fresh service-intent detection and session `service` update
    (src/lambda_handler.py:3081-3112); the local `active_service` is still
    `None` at this point in the source, so a detected intent always sets
    the session's `service` field. -/
def serviceIntentPhase (inp : Inp) (o : Oracles) (f : Flow) : Flow :=
  let messageLower := pyLower (pyStrip inp.message)
  if f.intent.isNone && inp.attachment.isNone then
    match detectServiceIntent o.serviceIntentAI messageLower with
    | some svc =>
      { f with
        serviceIntent := some svc
        intent := some svc
        st := { f.st with service := svc } }
    | none => f
  else f

/-- Snapshot refresh (src/lambda_handler.py:3114-3131) and `active_service`
    resolution from the (possibly refreshed) snapshot. -/
def refetchPhase (f : Flow) : Flow :=
  let f1 :=
    if f.intent.isNone || f.intent = some (str "document_verified") then
      { f with snap := f.st }
    else f
  { f1 with
    activeService := if f1.snap.service.isEmpty then none else some f1.snap.service }

/-- The license-renewal fee table (src/lambda_handler.py:3343-3344). -/
def renewFeePerYear : Nat := 30

/-- Service-workflow classification chain (src/lambda_handler.py:3133-3522):
    confirmations, cancellations, duration selection, TNB account selection. -/
def serviceChainPhase (inp : Inp) (o : Oracles) (f : Flow) : Flow :=
  let messageLower := pyLower (pyStrip inp.message)
  let aff := isAffirmative o.affirmativeAI messageLower
  let neg := isNegative o.negativeAI messageLower
  let renew := str "renew_license"
  let tnb := str "pay_tnb_bill"
  if f.activeService = some renew && aff && f.pendingKey.isNone then
    let wf := f.st.getWorkflow renew
    if wf = some (str "license_shown") then
      { f with st := f.st.setWorkflow renew (str "license_confirmed") }
    else if wf = some (str "confirming_license_payment_details") then
      { f with
        st := f.st.setWorkflow renew (str "license_payment_confirmed")
        intent := some (str "renew_license_payment_confirmed") }
    else f
  else if f.activeService = some renew && neg && f.pendingKey.isNone then
    let wf := f.st.getWorkflow renew
    if wf = some (str "license_shown") || wf = some (str "confirming_license_payment_details") then
      { f with
        st := { f.st.setWorkflow renew (str "action_cancelled") with status := str "cancelled" }
        intent := some (str "force_end_connection") }
    else f
  else if f.activeService = some renew && f.pendingKey.isNone && f.intent.isNone then
    if f.st.getWorkflow renew = some (str "asking_duration") then
      match parseDurationYears o.durationAI inp.message with
      | some years =>
        { f with
          st := { f.st.setWorkflow renew (str "confirming_license_payment_details") with
                  durationYears := some years
                  renewFee := some (years * renewFeePerYear) }
          intent := some (str "license_duration_selected") }
      | none =>
        { f with intent := some (str "invalid_duration_format") }
    else f
  else if f.activeService = some tnb && f.pendingKey.isNone && inp.ekyc.isSome then
    let f1 :=
      if (inp.ekycAccounts).isEmpty then f
      else
        match detectAccountSelection o.accountAI inp.message inp.ekycAccounts with
        | some acct =>
          let st' := { f.st.setWorkflow tnb (str "account_selected") with
                       selectedTnbAccount := some acct }
          { f with st := st', snap := st', intent := some (str "tnb_account_selected") }
        | none => f
    if f1.intent.isNone && aff then
      if f1.st.getWorkflow tnb = some (str "tnb_bills_shown") then
        { f1 with
          st := f1.st.setWorkflow tnb (str "tnb_bills_confirmed")
          intent := some (str "pay_tnb_bill_payment_confirmed") }
      else f1
    else f1
  else if f.activeService = some tnb && aff && f.pendingKey.isNone then
    if f.st.getWorkflow tnb = some (str "tnb_bills_shown") then
      { f with
        st := f.st.setWorkflow tnb (str "tnb_bills_confirmed")
        intent := some (str "pay_tnb_bill_payment_confirmed") }
    else f
  else if f.activeService = some tnb && neg && f.pendingKey.isNone then
    if f.st.getWorkflow tnb = some (str "tnb_bills_shown") then
      { f with
        st := { f.st.setWorkflow tnb (str "action_cancelled") with status := str "cancelled" }
        intent := some (str "force_end_connection") }
    else f
  else f

/-- End-connection redirect handling (src/lambda_handler.py:3524-3556). -/
def redirectPhase (inp : Inp) (o : Oracles) (f : Flow) : Flow :=
  let messageLower := pyLower (pyStrip inp.message)
  if f.intent.isNone && f.snap.redirectToEnd then
    if isAffirmative o.affirmativeAI messageLower then
      { f with
        st := { f.st with redirectToEnd := false }
        intent := some (str "continue_services") }
    else if isNegative o.negativeAI messageLower then
      { f with intent := some (str "end_connection") }
    else
      { f with intent := some (str "confirming_end_connection") }
  else f

/-- Readiness evaluation and the one-shot transcript reset
    (src/lambda_handler.py:3558-3604): the first time an active service's
    requirements are met, `messages` is reset to `[]` and the
    `<service>_messages_cleared` flag is set. -/
def readyClearPhase (inp : Inp) (f : Flow) : Flow :=
  match f.activeService with
  | none => { f with ready := false, justReady := false }
  | some svc =>
    let ready := serviceRequirementsMet svc f.snap (inp.ekycAccounts)
    if ready && ¬ f.st.messagesCleared.contains svc then
      { f with
        ready := ready
        justReady := true
        st := { f.st with messages := [], messagesCleared := svc :: f.st.messagesCleared } }
    else
      { f with ready := ready, justReady := false }

/-- Attachment processing (src/lambda_handler.py:3606-3737): OCR, blur
    gate, identity cross-check, category gate, then persistence of the
    document context entry. -/
def attachmentPhase (inp : Inp) (f : Flow) : Except TurnOutcome Flow := do
  match inp.attachment with
  | none => pure f
  | some att =>
    if att.hasUrl && ¬ att.name.isEmpty then
      match inp.ocrResult with
      | none => pure f
      | some ocr =>
        if ocr.isBlurry then
          throw (ok200 f.st .blurNotice (some (str "document_quality_issue")))
        else
          let catLower := pyLower ocr.detected_category
          let extractedIc := (ocr.extracted_data.get (str "userId")).getD []
          let mismatch :=
            if catLower = str "idcard" && ¬ extractedIc.isEmpty then
              let nu := normalizeIc extractedIc
              let nm := normalizeIc inp.userId
              ¬ nu.isEmpty && ¬ nm.isEmpty && nu ≠ nm
            else false
          if mismatch then
            throw (ok200 f.st (.identityMismatch (maskIc (normalizeIc extractedIc)))
              (some (str "identity_mismatch")))
          else
            let cat := ocr.detected_category
            let wrongCat : Bool :=
              match f.activeService with
              | some svc =>
                if svc = str "renew_license" then
                  !([str "idcard", str "license", str "license-front"].contains cat)
                else if svc = str "pay_tnb_bill" then
                  cat != str "tnb"
                else true
              | none => false
            match f.activeService with
            | some svc =>
              if wrongCat then
                throw (ok200 f.st (.wrongDocCategory cat svc)
                  (some (str "wrong_document_category")))
              else
                pure { f with
                  intent := some (str "document_processing")
                  st := saveDocumentContext f.st ocr att.name
                  ocr := some ocr }
            | none =>
              pure { f with
                intent := some (str "document_processing")
                st := saveDocumentContext f.st ocr att.name
                ocr := some ocr }
    else
      pure f

end MyGovHub

namespace MyGovHub

/-- Intents excluded from the service-ready deterministic next-step gate
    (src/lambda_handler.py:3748-3751). -/
def readyGateExcluded : List Str :=
  [str "document_processing", str "document_correction_needed",
   str "document_correction_provided", str "force_end_connection",
   str "confirming_end_connection", str "end_connection", str "continue_services"]

/-- What the reply-determination step produced: a deterministic template,
    a service next-step message, or a prompt for the completion service. -/
inductive ReplyPlan where
  | direct (tag : DirectTag)
  | service (m : ServiceMsg)
  | prompt (tag : PromptTag)
  deriving DecidableEq, Repr

/-- The reply a plan yields without a model call. -/
def ReplyPlan.directReply : ReplyPlan → Option Reply
  | .direct t => some (Reply.direct t)
  | .service m => some (Reply.serviceMessage m)
  | .prompt _ => none

/-- Category of the first verified document in the snapshot
    (src/lambda_handler.py:3884-3890). -/
def verifiedDocCategory (snap : Session) : Option Str :=
  (snap.docs.find? (fun p => p.2.isVerified = str "verified")).map
    (fun p => p.2.categoryDetection.detected_category)

/-- The `document_verified` reply selection without an active service
    (src/lambda_handler.py:3883-3937): category-specific suggestion prompts,
    or the direct service menu for an identity card. -/
def verifiedSuggestPlan (cat : Option Str) : ReplyPlan :=
  if cat = some (str "tnb") then .prompt .verifiedTnbSuggest
  else if cat = some (str "license") || cat = some (str "license-front") ||
      cat = some (str "license-back") then .prompt .verifiedLicenseSuggest
  else if cat = some (str "idcard") then .direct .idcardServices
  else .prompt .verifiedGenericSuggest

/-- The `else` chain of the reply determination
    (src/lambda_handler.py:3775-4188). Every branch leaves the store
    untouched; it only selects a template or a prompt. -/
def replyChain (inp : Inp) (o : Oracles) (f : Flow) : ReplyPlan :=
  if f.intent = some (str "renew_license") then .prompt .renewLicenseIntent
  else if f.intent = some (str "pay_tnb_bill") then
    if ¬ (inp.ekycAccounts).isEmpty then
      .direct (.tnbAccountSelection inp.ekycAccounts)
    else .direct .tnbUploadPrompt
  else if f.intent = some (str "document_processing") then
    if f.ocr.isSome then .prompt .documentAnalysis
    else .prompt .docProcessingFailed
  else if f.intent = some (str "document_verified") then
    match f.activeService with
    | none => verifiedSuggestPlan (verifiedDocCategory f.snap)
    | some _ => .prompt .verifiedActiveService
  else if f.intent = some (str "document_correction_needed") then
    .prompt .correctionNeeded
  else if f.intent = some (str "document_correction_provided") then
    match f.pendingKey with
    | some k =>
      if (f.st.getDoc k).isSome then .prompt .correctionProvidedPreview
      else .prompt .correctionRetrievalError
    | none => .prompt .correctionRetrievalError
  else if f.intent = some (str "force_end_connection") then .prompt .forceEnd
  else if f.intent = some (str "confirming_end_connection") then
    .direct .confirmingEnd
  else if f.intent = some (str "end_connection") then
    .direct .endConnection
  else if f.intent = some (str "continue_services") then
    .direct .continueServices
  else if f.intent = some (str "invalid_duration_format") then
    .direct .invalidDurationFormat
  else
    if f.activeService.isNone && inp.attachment.isNone &&
        ¬ (pyStrip inp.message).isEmpty then
      match detectServiceIntent o.serviceIntentAI2 inp.message with
      | none => .direct .serviceSelectionPrompt
      | some _ => .prompt .genericContext
    else .prompt .genericContext

/-- Reply determination (src/lambda_handler.py:3745-4188): the ready-service
    gate invokes `_build_service_next_step_message` (whose returns are all
    direct texts, never `SYSTEM:`-prefixed prompts) and may overwrite the
    intent; otherwise the intent-keyed chain picks a template or a prompt. -/
def replyPlanPhase (inp : Inp) (o : Oracles) (f : Flow) : Flow × ReplyPlan :=
  match f.activeService with
  | some svc =>
    if f.ready && ¬ readyGateExcluded.contains (f.intent.getD []) then
      let (st', m) := buildServiceNextStep svc f.snap f.st o
      let intent' :=
        if f.intent.isNone || f.intent = some (str "document_verified") || f.justReady then
          some (str "service_" ++ svc ++ str "_next")
        else f.intent
      ({ f with st := st', intent := intent' }, .service m)
    else (f, replyChain inp o f)
  | none => (f, replyChain inp o f)

/-- Generation, persistence, post-processing and response assembly
    (src/lambda_handler.py:4190-4391). A prompt invokes the completion
    service; on failure the turn continues with `response_text = None` and a
    recorded `model_error`. Both turn sides are then pushed; a failing push
    aborts with HTTP 500 (durability rule). Finally the 200 response is
    assembled, with `modelError` populated when generation failed. -/
def persistAndRespond (inp : Inp) (o : Oracles) (f : Flow) (plan : ReplyPlan) :
    TurnOutcome :=
  let (replyOpt, modelError) :=
    match plan with
    | .direct t => (some (Reply.direct t), (none : Option Str))
    | .service m => (some (Reply.serviceMessage m), (none : Option Str))
    | .prompt _ =>
      match o.replyAI with
      | .ok t => (some (.generated (stripRolePrefix t)), none)
      | .error e => (none, some e)
  if o.pushUserFails then
    (f.st, { httpStatus := 500, reply := none, intentType := none,
             modelError := none, sessionOut := .same })
  else
    let userMsg : Msg := { role := str "user", text := inp.message, intent := f.intent }
    let st1 := { f.st with messages := f.st.messages ++ [userMsg] }
    if o.pushAssistantFails then
      (st1, { httpStatus := 500, reply := none, intentType := none,
              modelError := none, sessionOut := .same })
    else
      let assistantMsg : Msg :=
        { role := str "assistant"
          text := renderReply ((replyOpt).getD .modelErrorFallback)
          intent := none }
      let st2 := { st1 with messages := st1.messages ++ [assistantMsg] }
      let st3 :=
        if f.intent = some (str "continue_services") ||
            f.intent = some (str "confirming_end_connection") then
          { st2 with status := str "completed" }
        else st2
      let out :=
        if f.intent = some (str "force_end_connection") ||
            f.intent = some (str "end_connection") then SessOut.sessionEnd
        else if f.intent = some (str "continue_services") then SessOut.freshId
        else SessOut.same
      (st3, { httpStatus := 200
              reply := some ((replyOpt).getD .modelErrorFallback)
              intentType := f.intent
              modelError := modelError
              sessionOut := out })

/-- The pure mid-pipeline phases in source order (stale-flag cleanup,
    document classification, verified-commit, correction staging, fresh
    service intent, snapshot refresh, service workflow chain, redirect
    handling, readiness evaluation and transcript reset). -/
def midPhases (inp : Inp) (o : Oracles) (f : Flow) : Flow :=
  readyClearPhase inp (redirectPhase inp o (serviceChainPhase inp o
    (refetchPhase (serviceIntentPhase inp o (stagingPhase inp (commitPhase
      (docClassifyPhase inp o (staleFlagPhase f))))))))

/-- The whole turn on an existing session (`lambda_handler`,
    src/lambda_handler.py:1580-4398, for a non-sentinel `sessionId`). -/
def processTurn (inp : Inp) (o : Oracles) (s : Session) : TurnOutcome :=
  match loadPhase o s with
  | .error out => out
  | .ok s1 =>
    let pending := findPendingDoc s1
    let f0 : Flow :=
      { st := s1, snap := s1
        intent := transcriptionIntent o inp.message
        pendingKey := pending.map Prod.fst
        pendingDoc := pending.map Prod.snd
        serviceIntent := none, activeService := none
        ready := false, justReady := false, ocr := none }
    let f1 := terminationPhase inp o f0
    match transcriptionPhase f1 with
    | .error out => out
    | .ok f2 =>
      match timeoutChoicePhase inp f2 with
      | .error out => out
      | .ok f3 =>
        match attachmentPhase inp (midPhases inp o f3) with
        | .error out => out
        | .ok f13 =>
          let (f14, plan) := replyPlanPhase inp o f13
          persistAndRespond inp o f14 plan

end MyGovHub

namespace MyGovHub

/-! ## Lemmas about field maps -/

theorem Fmap.get_cons_self (p : Str × Str) (t : Fmap) (k : Str) (h : p.1 = k) :
    Fmap.get (p :: t) k = some p.2 := by
  unfold Fmap.get
  rw [List.find?_cons_of_pos _ (by simp [h])]
  rfl

theorem Fmap.get_cons_ne (p : Str × Str) (t : Fmap) (k : Str) (h : ¬ p.1 = k) :
    Fmap.get (p :: t) k = Fmap.get t k := by
  unfold Fmap.get
  rw [List.find?_cons_of_neg _ (by simp [h])]

theorem Fmap.set_cons_ne (p : Str × Str) (t : Fmap) (k v : Str) (h : ¬ p.1 = k) :
    Fmap.set (p :: t) k v = p :: Fmap.set t k v := by
  unfold Fmap.set
  rw [List.find?_cons_of_neg _ (by simp [h])]
  split <;> simp [h]

theorem Fmap.get_mapUpdate_ne (t : Fmap) (k k' v : Str) (h : ¬ k = k') :
    Fmap.get (t.map (fun p => if p.1 = k then (k, v) else p)) k' = Fmap.get t k' := by
  induction t with
  | nil => rfl
  | cons q t ih =>
    by_cases hq : q.1 = k
    · simp only [List.map_cons, if_pos hq]
      rw [Fmap.get_cons_ne _ _ _ h, Fmap.get_cons_ne _ _ _ (by rw [hq]; exact h)]
      exact ih
    · simp only [List.map_cons, if_neg hq]
      by_cases hq' : q.1 = k'
      · rw [Fmap.get_cons_self _ _ _ hq', Fmap.get_cons_self _ _ _ hq']
      · rw [Fmap.get_cons_ne _ _ _ hq', Fmap.get_cons_ne _ _ _ hq']
        exact ih

theorem Fmap.get_set_self (d : Fmap) (k v : Str) : (d.set k v).get k = some v := by
  induction d with
  | nil => simp [Fmap.set, Fmap.get]
  | cons p t ih =>
    by_cases hp : p.1 = k
    · unfold Fmap.set
      rw [List.find?_cons_of_pos _ (by simp [hp])]
      simp only [Option.isSome_some, if_pos, List.map_cons, if_pos hp]
      rw [Fmap.get_cons_self _ _ _ rfl]
    · rw [Fmap.set_cons_ne _ _ _ _ hp, Fmap.get_cons_ne _ _ _ hp]
      exact ih

theorem Fmap.get_set_ne (d : Fmap) (k k' v : Str) (h : k' ≠ k) :
    (d.set k v).get k' = d.get k' := by
  induction d with
  | nil =>
    unfold Fmap.set Fmap.get
    simp [List.find?_cons_of_neg, Ne.symm h]
  | cons p t ih =>
    by_cases hp : p.1 = k
    · unfold Fmap.set
      rw [List.find?_cons_of_pos _ (by simp [hp])]
      simp only [Option.isSome_some, if_pos, List.map_cons, if_pos hp]
      rw [Fmap.get_cons_ne _ _ _ (fun hh => h hh.symm),
          Fmap.get_mapUpdate_ne _ _ _ _ (fun hh => h hh.symm),
          Fmap.get_cons_ne _ _ _ (fun hh => h (hp ▸ hh).symm)]
    · rw [Fmap.set_cons_ne _ _ _ _ hp]
      by_cases hp' : p.1 = k'
      · rw [Fmap.get_cons_self _ _ _ hp', Fmap.get_cons_self _ _ _ hp']
      · rw [Fmap.get_cons_ne _ _ _ hp', Fmap.get_cons_ne _ _ _ hp']
        exact ih

theorem Fmap.get_eq_none_of_not_mem (d : Fmap) (k : Str)
    (h : k ∉ d.map Prod.fst) : d.get k = none := by
  induction d with
  | nil => rfl
  | cons p t ih =>
    simp only [List.map_cons, List.mem_cons] at h
    push_neg at h
    rw [Fmap.get_cons_ne _ _ _ (fun hh => h.1 hh.symm)]
    exact ih h.2

theorem Fmap.merge_get (src : Fmap) (d : Fmap) (k : Str)
    (h : (src.map Prod.fst).Nodup) :
    (d.merge src).get k =
      match src.get k with
      | some v => some v
      | none => d.get k := by
  induction src generalizing d with
  | nil => simp [Fmap.merge, Fmap.get]
  | cons p t ih =>
    simp only [List.map_cons, List.nodup_cons] at h
    have hmerge : Fmap.merge d (p :: t) = Fmap.merge (d.set p.1 p.2) t := rfl
    rw [hmerge, ih _ h.2]
    by_cases hk : p.1 = k
    · subst hk
      have ht : Fmap.get t p.1 = none := Fmap.get_eq_none_of_not_mem t p.1 h.1
      have hp : Fmap.get (p :: t) p.1 = some p.2 :=
        Fmap.get_cons_self _ _ _ rfl
      rw [ht, hp, Fmap.get_set_self]
    · have hp : Fmap.get (p :: t) k = Fmap.get t k :=
        Fmap.get_cons_ne _ _ _ hk
      rw [hp, Fmap.get_set_ne _ _ _ _ (fun hh => hk hh.symm)]

/-- `stageValues` maps values in place, preserving keys and positions. -/
theorem stageValues_get (E raw : Fmap) (k : Str) :
    (stageValues E raw).get k =
      (raw.get k).map
        (fun v => applyCasing ((E.get k).getD []) (cleanCorrectionValue v)) := by
  induction raw with
  | nil => simp [stageValues, Fmap.get]
  | cons p t ih =>
    by_cases hk : p.1 = k
    · subst hk
      unfold stageValues at *
      simp only [List.map_cons]
      rw [Fmap.get_cons_self _ _ _ rfl, Fmap.get_cons_self _ _ _ rfl]
      rfl
    · unfold stageValues at *
      simp only [List.map_cons]
      rw [Fmap.get_cons_ne (p := (p.1, applyCasing ((E.get p.1).getD [])
            (cleanCorrectionValue p.2))) _ _ hk,
          Fmap.get_cons_ne _ _ _ hk]
      exact ih

theorem stageValues_keys (E raw : Fmap) :
    (stageValues E raw).map Prod.fst = raw.map Prod.fst := by
  unfold stageValues
  simp

theorem stageValues_isEmpty (E raw : Fmap) :
    (stageValues E raw).isEmpty = raw.isEmpty := by
  unfold stageValues
  cases raw <;> simp

/-- C1: On a confirmation turn for a document with staged `correctedData`,
    the commit sets `isVerified` to `'verified'`, merges every staged field
    into `extractedData` with the original value's casing style propagated
    onto the cleaned replacement, and clears `correctedData`; the resulting
    `extractedData` is exactly the original fields overlaid with the staged
    corrected values. -/
theorem correction_roundtrip_commit (doc : DocEntry) (raw : Fmap)
    (hnodup : (raw.map Prod.fst).Nodup) (hne : ¬ raw.isEmpty) :
    let staged := stageCorrections doc raw
    let final := commitVerification staged
    final.isVerified = str "verified" ∧
    final.correctedData = none ∧
    (∀ k, final.extractedData.get k =
      match (raw.get k) with
      | some v =>
        some (applyCasing ((doc.extractedData.get k).getD [])
          (cleanCorrectionValue v))
      | none => doc.extractedData.get k) := by
  intro staged final
  have hstagedne : ¬ (stageValues doc.extractedData raw).isEmpty := by
    rw [stageValues_isEmpty]; exact hne
  have hstaged : staged =
      { doc with
        correctedData := some (stageValues doc.extractedData raw)
        isVerified := str "correcting" } := by
    show stageCorrections doc raw = _
    unfold stageCorrections
    rw [if_neg hstagedne]
  refine ⟨rfl, rfl, ?_⟩
  intro k
  show (commitVerification staged).extractedData.get k = _
  rw [hstaged]
  unfold commitVerification
  simp only [Option.getD_some]
  rw [Fmap.merge_get _ _ _ (by rw [stageValues_keys]; exact hnodup)]
  rw [stageValues_get]
  cases raw.get k <;> simp

/-- Witness for `correction_roundtrip_commit` at a concrete document. -/
theorem correction_roundtrip_commit_witness :
    let doc : DocEntry :=
      { extractedData := [(str "full_name", str "LIM WEN"), (str "userId", str "123")]
        correctedData := none
        categoryDetection := { detected_category := str "idcard" }
        isVerified := str "unverified" }
    let raw : Fmap := [(str "full_name", str "lim wen hau")]
    (commitVerification (stageCorrections doc raw)).isVerified = str "verified" ∧
    (commitVerification (stageCorrections doc raw)).correctedData = none ∧
    (commitVerification (stageCorrections doc raw)).extractedData.get (str "full_name") =
      some (applyCasing (str "LIM WEN") (cleanCorrectionValue (str "lim wen hau"))) := by
  intro doc raw
  obtain ⟨h1, h2, h3⟩ := correction_roundtrip_commit doc raw (by decide) (by decide)
  refine ⟨h1, h2, ?_⟩
  have := h3 (str "full_name")
  simpa using this

end MyGovHub

namespace MyGovHub

/-! ### Request validation (src/lambda_handler.py:1637-1655)

The handler reads the body fields and normalizes the timestamp with
`body.get('createdAt').replace('Z', '+00:00')` BEFORE the required-field
checks. There is no enclosing `try` until line 3746, so when `createdAt` is
absent or `null`, `body.get('createdAt')` is `None` and the `.replace` call
raises an uncaught `AttributeError`. -/

structure RequestBody where
  userId : Option Str
  message : Option Str
  createdAt : Option Str
  sessionId : Option Str
  attachment : List Attachment
  deriving Repr

inductive ValidationOutcome where
  /-- uncaught `AttributeError` escaping the handler. -/
  | attributeError
  /-- 400 `Missing required fields: 'userId' or 'sessionId'`. -/
  | missingFields
  /-- 400 `Either 'message' or 'attachment' must be provided`. -/
  | missingContent
  /-- validation passed; the normalized user timestamp. -/
  | proceed (userTimestampIso : Str)
  deriving DecidableEq, Repr

/-- `createdAt.replace('Z', '+00:00')`. -/
def normalizeTimestamp (s : Str) : Str :=
  s.flatMap (fun c => if c = 'Z' then str "+00:00" else [c])

def validateTurnRequest (b : RequestBody) : ValidationOutcome :=
  let userId := b.userId.getD []
  let message := b.message.getD []
  match b.createdAt with
  | none => .attributeError
  | some ts =>
    let iso := normalizeTimestamp ts
    if userId.isEmpty || b.sessionId.isNone then .missingFields
    else if message.isEmpty && b.attachment.isEmpty then .missingContent
    else .proceed iso

/-- C9: A request without `createdAt` (absent or `null`) dies with an
    uncaught exception at the timestamp-normalization step before the
    required-field validation, so it never receives the 400 missing-field
    rejection — even when `userId` or `sessionId` is also missing. -/
theorem createdAt_missing_raises (b : RequestBody) (h : b.createdAt = none) :
    validateTurnRequest b = .attributeError ∧
    validateTurnRequest b ≠ .missingFields := by
  unfold validateTurnRequest
  rw [h]
  exact ⟨rfl, by simp⟩

/-- Witness: a body missing both `createdAt` and `userId` raises instead of
    being rejected with the 400. -/
theorem createdAt_missing_raises_witness :
    validateTurnRequest
      { userId := none, message := some (str "hi"), createdAt := none,
        sessionId := some (str "abc"), attachment := [] } = .attributeError :=
  (createdAt_missing_raises _ rfl).1

/-! ### The durability of the persistence step -/

/-- C3: When the reply-generation call fails, the turn still succeeds: the
    user message and an assistant error record are pushed to the session
    log, the HTTP status is 200 with `modelError` populated with the failure
    string, and the visible reply is the fallback error-notice. -/
theorem model_failure_degrades (inp : Inp) (o : Oracles) (f : Flow)
    (tag : PromptTag) (e : Str)
    (hfail : o.replyAI = .error e)
    (hp1 : o.pushUserFails = false) (hp2 : o.pushAssistantFails = false) :
    (persistAndRespond inp o f (.prompt tag)).2.httpStatus = 200 ∧
    (persistAndRespond inp o f (.prompt tag)).2.modelError = some e ∧
    (persistAndRespond inp o f (.prompt tag)).2.reply = some Reply.modelErrorFallback ∧
    (persistAndRespond inp o f (.prompt tag)).1.messages = f.st.messages ++
      [{ role := str "user", text := inp.message, intent := f.intent },
       { role := str "assistant", text := renderReply Reply.modelErrorFallback,
         intent := none }] := by
  unfold persistAndRespond
  simp only [hfail, hp1, hp2, Bool.false_eq_true, if_false, Option.getD_none]
  refine ⟨trivial, trivial, trivial, ?_⟩
  split <;> simp

/-- Witness for `model_failure_degrades` at a concrete turn. -/
theorem model_failure_degrades_witness :
    (persistAndRespond
      { userId := str "u", message := str "hello", attachment := none,
        ekyc := none, ocrResult := none }
      { transcriptionAI := .error (), termIntentAI := .error (),
        rejIntentAI := .error (), affirmativeAI := .error (),
        negativeAI := .error (), durationAI := .error (),
        accountAI := .error (), serviceIntentAI := .error (),
        serviceIntentAI2 := .error (), replyAI := .error (str "quota"),
        licenseLookup := .ok none, billsLookup := .ok [], dbNameSet := true,
        sessionTimedOut := false, pushUserFails := false,
        pushAssistantFails := false }
      { st := { status := str "active", service := [], messages := [],
                timeoutAwaitingChoice := none, docs := [], workflow := [],
                durationYears := none, renewFee := none,
                selectedTnbAccount := none, messagesCleared := [],
                redirectToEnd := false, databaseLicense := none,
                databaseBills := none, tnbTotalAmount := none,
                tnbBillCount := none }
        snap := { status := str "active", service := [], messages := [],
                  timeoutAwaitingChoice := none, docs := [], workflow := [],
                  durationYears := none, renewFee := none,
                  selectedTnbAccount := none, messagesCleared := [],
                  redirectToEnd := false, databaseLicense := none,
                  databaseBills := none, tnbTotalAmount := none,
                  tnbBillCount := none }
        intent := none, pendingKey := none, pendingDoc := none,
        serviceIntent := none, activeService := none, ready := false,
        justReady := false, ocr := none }
      (.prompt .genericContext)).2.httpStatus = 200 :=
  (model_failure_degrades _ _ _ .genericContext (str "quota") rfl rfl rfl).1

/-- C4: In the persistence step, the turn is reported successful only when
    both the user and the assistant record were appended together; a failure
    of either push reports the whole turn as failed (HTTP 500). There is no
    outcome reporting success with only one side persisted. -/
theorem turn_persistence_durable (inp : Inp) (o : Oracles) (f : Flow)
    (plan : ReplyPlan) :
    ((persistAndRespond inp o f plan).2.httpStatus = 200 →
      ∃ assistantText,
        (persistAndRespond inp o f plan).1.messages = f.st.messages ++
          [{ role := str "user", text := inp.message, intent := f.intent },
           { role := str "assistant", text := assistantText, intent := none }]) ∧
    ((o.pushUserFails = true ∨ o.pushAssistantFails = true) →
      (persistAndRespond inp o f plan).2.httpStatus = 500) := by
  constructor
  · intro h200
    by_cases h1 : o.pushUserFails
    · unfold persistAndRespond at h200
      simp [h1] at h200
    · by_cases h2 : o.pushAssistantFails
      · unfold persistAndRespond at h200
        simp [h1, h2] at h200
      · refine ⟨renderReply ((match plan with
            | .direct t => (some (Reply.direct t), (none : Option Str))
            | .service m => (some (Reply.serviceMessage m), (none : Option Str))
            | .prompt _ =>
              match o.replyAI with
              | .ok t => (some (.generated (stripRolePrefix t)), none)
              | .error e => (none, some e)).1.getD Reply.modelErrorFallback), ?_⟩
        unfold persistAndRespond
        simp only [h1, h2, Bool.false_eq_true, if_false]
        split <;> simp
  · intro hfail
    unfold persistAndRespond
    rcases hfail with h | h
    · simp [h]
    · by_cases h1 : o.pushUserFails
      · simp [h1]
      · simp [h1, h]

/-- Witness for `turn_persistence_durable`: both implications discharged at
    concrete oracles. -/
theorem turn_persistence_durable_witness :
    ∃ assistantText,
      (persistAndRespond
        { userId := str "u", message := str "hi", attachment := none,
          ekyc := none, ocrResult := none }
        { transcriptionAI := .error (), termIntentAI := .error (),
          rejIntentAI := .error (), affirmativeAI := .error (),
          negativeAI := .error (), durationAI := .error (),
          accountAI := .error (), serviceIntentAI := .error (),
          serviceIntentAI2 := .error (), replyAI := .ok (str "fine"),
          licenseLookup := .ok none, billsLookup := .ok [], dbNameSet := true,
          sessionTimedOut := false, pushUserFails := false,
          pushAssistantFails := false }
        { st := { status := str "active", service := [], messages := [],
                  timeoutAwaitingChoice := none, docs := [], workflow := [],
                  durationYears := none, renewFee := none,
                  selectedTnbAccount := none, messagesCleared := [],
                  redirectToEnd := false, databaseLicense := none,
                  databaseBills := none, tnbTotalAmount := none,
                  tnbBillCount := none }
          snap := { status := str "active", service := [], messages := [],
                    timeoutAwaitingChoice := none, docs := [], workflow := [],
                    durationYears := none, renewFee := none,
                    selectedTnbAccount := none, messagesCleared := [],
                    redirectToEnd := false, databaseLicense := none,
                    databaseBills := none, tnbTotalAmount := none,
                    tnbBillCount := none }
          intent := none, pendingKey := none, pendingDoc := none,
          serviceIntent := none, activeService := none, ready := false,
          justReady := false, ocr := none }
        (.direct .confirmingEnd)).1.messages =
        ({ status := str "active", service := [], messages := [],
           timeoutAwaitingChoice := none, docs := [], workflow := [],
           durationYears := none, renewFee := none,
           selectedTnbAccount := none, messagesCleared := [],
           redirectToEnd := false, databaseLicense := none,
           databaseBills := none, tnbTotalAmount := none,
           tnbBillCount := none } : Session).messages ++
          [{ role := str "user", text := str "hi", intent := none },
           { role := str "assistant", text := assistantText, intent := none }] :=
  (turn_persistence_durable _ _ _ _).1 rfl

end MyGovHub

namespace MyGovHub

/-! ### Concrete fixtures used by counterexamples and witnesses -/

def baseSession : Session where
  status := str "active"
  service := []
  messages := []
  timeoutAwaitingChoice := none
  docs := []
  workflow := []
  durationYears := none
  renewFee := none
  selectedTnbAccount := none
  messagesCleared := []
  redirectToEnd := false
  databaseLicense := none
  databaseBills := none
  tnbTotalAmount := none
  tnbBillCount := none

def baseOracles : Oracles where
  transcriptionAI := .ok (str "NORMAL_MESSAGE")
  termIntentAI := .error ()
  rejIntentAI := .error ()
  affirmativeAI := .error ()
  negativeAI := .error ()
  durationAI := .error ()
  accountAI := .error ()
  serviceIntentAI := .ok (str "NONE")
  serviceIntentAI2 := .ok (str "NONE")
  replyAI := .ok (str "Certainly.")
  licenseLookup := .ok none
  billsLookup := .ok []
  dbNameSet := true
  sessionTimedOut := false
  pushUserFails := false
  pushAssistantFails := false

def textTurn (m : String) : Inp where
  userId := str "041223070745"
  message := str m
  attachment := none
  ekyc := none
  ocrResult := none

/-- An already-verified identity document satisfying the license-renewal
    readiness predicate. -/
def verifiedIdDoc : DocEntry where
  extractedData := [(str "full_name", str "LIM WEN HAU"),
                    (str "userId", str "041223070745")]
  correctedData := none
  categoryDetection := { detected_category := str "idcard" }
  isVerified := str "verified"

def activeLicense : LicenseRec where
  status := str "active"
  validTo := str "2026-01-01"
  licenseNumber := str "L123"

/-- Session with an active license-renewal service at `license_shown`. -/
def licenseShownSession : Session := { baseSession with
  service := str "renew_license"
  workflow := [(str "renew_license", str "license_shown")] }

/-- Session with an active license-renewal service at `asking_duration`,
    readiness satisfied, transcript already reset. -/
def askingDurationSession : Session := { baseSession with
  service := str "renew_license"
  workflow := [(str "renew_license", str "asking_duration")]
  docs := [(str "document_ic_jpg", verifiedIdDoc)]
  messagesCleared := [str "renew_license"] }

def durationOracles : Oracles := { baseOracles with
  durationAI := .ok (str "INVALID")
  licenseLookup := .ok (some activeLicense) }

/-- Session awaiting a timeout choice. -/
def timeoutSession : Session := { baseSession with
  timeoutAwaitingChoice := some true }

/-- Session whose license-renewal readiness is satisfied but whose
    transcript has not yet been reset, with one prior message. -/
def readyUnclearedSession : Session := { baseSession with
  service := str "renew_license"
  docs := [(str "document_ic_jpg", verifiedIdDoc)]
  messages := [{ role := str "assistant", text := str "earlier reply",
                 intent := none }] }

def readyOracles : Oracles := { baseOracles with
  licenseLookup := .ok (some activeLicense) }

/-- Upload of an identity card whose extracted identifier normalizes to the
    empty string (punctuation only). -/
def dashUpload : Inp where
  userId := str "041223-07-0745"
  message := []
  attachment := some { name := str "ic.jpg", hasUrl := true }
  ekyc := none
  ocrResult := some { extracted_data := [(str "userId", str "---")],
                      detected_category := str "idcard", isBlurry := false }

/-- Upload of a blurry document. -/
def blurUpload : Inp where
  userId := str "041223070745"
  message := []
  attachment := some { name := str "ic.jpg", hasUrl := true }
  ekyc := none
  ocrResult := some { extracted_data := [], detected_category := str "idcard",
                      isBlurry := true }

/-- C2 counterexample: the user sends "exit" with an active license-renewal
    service at `license_shown` and no pending document. The session is
    cancelled, but — contrary to the claim — a service-workflow transition
    IS applied for that turn: the termination check does not short-circuit
    the later negative-classifier branch ("exit" is in the negative token
    list), which moves the workflow state to `action_cancelled`. -/
theorem exit_applies_workflow_transition :
    licenseShownSession.getWorkflow (str "renew_license") =
      some (str "license_shown") ∧
    (processTurn (textTurn "exit") baseOracles licenseShownSession).1.getWorkflow
      (str "renew_license") = some (str "action_cancelled") := by
  decide

/-- C6: with the workflow at `asking_duration` and readiness satisfied, an
    out-of-range duration ("11") classifies as `invalid_duration_format`,
    but the ready-service gate (which does not exclude that intent) routes
    the reply through `_build_service_next_step_message`, which RESETS the
    workflow state to `license_shown` and replies with the license record —
    not the invalid-format notice, and not leaving the state unchanged. -/
theorem invalid_duration_resets_state :
    (processTurn (textTurn "11") durationOracles askingDurationSession).1.getWorkflow
      (str "renew_license") = some (str "license_shown") ∧
    (processTurn (textTurn "11") durationOracles askingDurationSession).2.intentType =
      some (str "invalid_duration_format") ∧
    (processTurn (textTurn "11") durationOracles askingDurationSession).2.reply =
      some (.serviceMessage (.licenseShown activeLicense)) := by
  decide

/-- C7: with `timeout_awaiting_choice` set and a reply that is neither
    CONTINUE-like nor NEW-like, the engine does re-ask — but the flag is
    `$set` to `False` up front and never restored, so the persisted context
    does NOT keep the flag set (contradicting the source's own comment
    "Invalid choice - ask again (keep timeout_awaiting_choice flag set)"
    at src/lambda_handler.py:2760). -/
theorem timeout_reask_clears_flag :
    (processTurn (textTurn "hello") baseOracles timeoutSession).2.reply =
      some .timeoutClarification ∧
    (processTurn (textTurn "hello") baseOracles timeoutSession).2.httpStatus = 200 ∧
    (processTurn (textTurn "hello") baseOracles timeoutSession).1.timeoutAwaitingChoice =
      some false := by
  decide

/-- C8 counterexample: the first turn on which an active service's
    readiness predicate is met resets `messages` to `[]`
    (src/lambda_handler.py:3587-3593), removing the previously persisted
    record — the log is not append-only. -/
theorem ready_reset_drops_messages :
    ¬ readyUnclearedSession.messages <+:
      (processTurn (textTurn "hello") readyOracles readyUnclearedSession).1.messages := by
  decide

/-- C5 counterexample: an identity document whose extracted identifier is
    `"---"` normalizes to the empty string, which differs from the
    subject's normalized identifier; the source's guard
    `norm_uploaded and norm_user and norm_uploaded != norm_user`
    (src/lambda_handler.py:3649) treats the empty normalization as
    "cannot compare", so the document IS persisted and processed normally. -/
theorem empty_normalized_ic_bypasses_check :
    normalizeIc (str "---") ≠ normalizeIc (str "041223-07-0745") ∧
    ((processTurn dashUpload baseOracles baseSession).1.getDoc
      (str "document_ic_jpg")).isSome ∧
    (processTurn dashUpload baseOracles baseSession).2.intentType =
      some (str "document_processing") := by
  decide

/-- C10 counterexample: a blurry upload arriving on the turn that first
    satisfies an active service's readiness predicate returns the 200 blur
    notice by early return, yet the message log was changed (reset to `[]`)
    before the early return — the log is not left unchanged. -/
theorem blur_early_return_after_reset :
    (processTurn blurUpload readyOracles readyUnclearedSession).2.httpStatus = 200 ∧
    (processTurn blurUpload readyOracles readyUnclearedSession).2.reply =
      some .blurNotice ∧
    (processTurn blurUpload readyOracles readyUnclearedSession).1.messages ≠
      readyUnclearedSession.messages := by
  decide

end MyGovHub

namespace MyGovHub

/-! ### Log-behaviour lemmas

Every store write of the pipeline either leaves `messages` alone, appends
records, or performs the one-shot readiness reset; `messagesCleared` only
grows. These per-phase facts combine into the master lemma
`run_log_spec` used by the append-only and early-return claims. -/

theorem buildServiceNextStep_preserves (svc : Str) (snap st : Session) (o : Oracles) :
    (buildServiceNextStep svc snap st o).1.messages = st.messages ∧
    (buildServiceNextStep svc snap st o).1.messagesCleared = st.messagesCleared := by
  unfold buildServiceNextStep Session.setWorkflow
  dsimp only
  repeat' split
  all_goals exact ⟨rfl, rfl⟩

theorem terminationPhase_preserves (inp : Inp) (o : Oracles) (f : Flow) :
    (terminationPhase inp o f).st.messages = f.st.messages ∧
    (terminationPhase inp o f).st.messagesCleared = f.st.messagesCleared := by
  unfold terminationPhase
  split <;> exact ⟨rfl, rfl⟩

theorem staleFlagPhase_preserves (f : Flow) :
    (staleFlagPhase f).st.messages = f.st.messages ∧
    (staleFlagPhase f).st.messagesCleared = f.st.messagesCleared := by
  unfold staleFlagPhase
  split <;> exact ⟨rfl, rfl⟩

theorem docClassifyPhase_preserves (inp : Inp) (o : Oracles) (f : Flow) :
    (docClassifyPhase inp o f).st.messages = f.st.messages ∧
    (docClassifyPhase inp o f).st.messagesCleared = f.st.messagesCleared := by
  unfold docClassifyPhase Session.updateDoc
  dsimp only
  repeat' split
  all_goals exact ⟨rfl, rfl⟩

theorem commitPhase_preserves (f : Flow) :
    (commitPhase f).st.messages = f.st.messages ∧
    (commitPhase f).st.messagesCleared = f.st.messagesCleared := by
  unfold commitPhase Session.updateDoc Session.getDoc
  dsimp only
  repeat' split
  all_goals exact ⟨rfl, rfl⟩

theorem stagingPhase_preserves (inp : Inp) (f : Flow) :
    (stagingPhase inp f).st.messages = f.st.messages ∧
    (stagingPhase inp f).st.messagesCleared = f.st.messagesCleared := by
  unfold stagingPhase Session.updateDoc
  dsimp only
  repeat' split
  all_goals exact ⟨rfl, rfl⟩

theorem serviceIntentPhase_preserves (inp : Inp) (o : Oracles) (f : Flow) :
    (serviceIntentPhase inp o f).st.messages = f.st.messages ∧
    (serviceIntentPhase inp o f).st.messagesCleared = f.st.messagesCleared := by
  unfold serviceIntentPhase
  dsimp only
  repeat' split
  all_goals exact ⟨rfl, rfl⟩

theorem refetchPhase_preserves (f : Flow) :
    (refetchPhase f).st.messages = f.st.messages ∧
    (refetchPhase f).st.messagesCleared = f.st.messagesCleared := by
  unfold refetchPhase
  dsimp only
  repeat' split
  all_goals exact ⟨rfl, rfl⟩

theorem serviceChainPhase_preserves (inp : Inp) (o : Oracles) (f : Flow) :
    (serviceChainPhase inp o f).st.messages = f.st.messages ∧
    (serviceChainPhase inp o f).st.messagesCleared = f.st.messagesCleared := by
  unfold serviceChainPhase Session.setWorkflow
  dsimp only
  repeat' split
  all_goals exact ⟨rfl, rfl⟩

theorem redirectPhase_preserves (inp : Inp) (o : Oracles) (f : Flow) :
    (redirectPhase inp o f).st.messages = f.st.messages ∧
    (redirectPhase inp o f).st.messagesCleared = f.st.messagesCleared := by
  unfold redirectPhase
  dsimp only
  repeat' split
  all_goals exact ⟨rfl, rfl⟩

theorem readyClearPhase_spec (inp : Inp) (f : Flow) :
    ((readyClearPhase inp f).st.messages = f.st.messages ∧
     (readyClearPhase inp f).st.messagesCleared = f.st.messagesCleared) ∨
    ((readyClearPhase inp f).st.messages = [] ∧
     ∃ svc, (readyClearPhase inp f).st.messagesCleared = svc :: f.st.messagesCleared ∧
       svc ∉ f.st.messagesCleared) := by
  unfold readyClearPhase
  dsimp only
  split
  · left; exact ⟨rfl, rfl⟩
  · rename_i svc hsvc
    split
    · rename_i h
      right
      refine ⟨rfl, svc, rfl, ?_⟩
      intro hmem
      simp only [Bool.and_eq_true, decide_eq_true_eq] at h
      exact h.2 (by simpa using List.elem_eq_true_of_mem hmem)
    · left; exact ⟨rfl, rfl⟩

end MyGovHub

namespace MyGovHub

/-- The replies produced only by the four early-return paths named by the
    frame-effect claim: timeout clarification, blurry-document notice,
    identity-mismatch notice, wrong-document-category notice. -/
def isEarlyReturnReply : Reply → Bool
  | .timeoutClarification => true
  | .blurNotice => true
  | .identityMismatch _ => true
  | .wrongDocCategory _ _ => true
  | _ => false

theorem loadPhase_err (o : Oracles) (s : Session) (st : Session) (r : TurnResponse)
    (h : loadPhase o s = .error (st, r)) :
    st.messages = s.messages ∧ st.messagesCleared = s.messagesCleared ∧
    r.httpStatus = 200 ∧
    (r.reply = some .timeoutNotice ∨ r.reply = some .archivedRestart) := by
  unfold loadPhase at h
  try dsimp only at h
  split at h
  · simp only [throw, throwThe, MonadExceptOf.throw] at h
    cases h
    exact ⟨rfl, rfl, rfl, Or.inl rfl⟩
  · split at h
    · simp only [throw, throwThe, MonadExceptOf.throw] at h
      cases h
      exact ⟨rfl, rfl, rfl, Or.inr rfl⟩
    · simp only [pure, Except.pure] at h
      cases h

theorem loadPhase_ok (o : Oracles) (s s1 : Session) (h : loadPhase o s = .ok s1) :
    s1 = s := by
  unfold loadPhase at h
  try dsimp only at h
  split at h
  · simp only [throw, throwThe, MonadExceptOf.throw] at h
    cases h
  · split at h
    · simp only [throw, throwThe, MonadExceptOf.throw] at h
      cases h
    · simp only [pure, Except.pure] at h
      cases h
      rfl

theorem transcriptionPhase_err (f : Flow) (st : Session) (r : TurnResponse)
    (h : transcriptionPhase f = .error (st, r)) :
    (∃ m, st.messages = f.st.messages ++ [m]) ∧
    st.messagesCleared = f.st.messagesCleared ∧
    r.httpStatus = 200 ∧ ∃ p, r.reply = some (.transcriptionFailed p) := by
  unfold transcriptionPhase at h
  try dsimp only at h
  split at h
  · simp only [throw, throwThe, MonadExceptOf.throw, ok200] at h
    cases h
    exact ⟨⟨_, rfl⟩, rfl, rfl, _, rfl⟩
  · simp only [pure, Except.pure] at h
    cases h

theorem transcriptionPhase_ok (f f' : Flow) (h : transcriptionPhase f = .ok f') :
    f' = f := by
  unfold transcriptionPhase at h
  try dsimp only at h
  split at h
  · simp only [throw, throwThe, MonadExceptOf.throw, ok200] at h
    cases h
  · simp only [pure, Except.pure] at h
    cases h
    rfl

theorem timeoutChoicePhase_err (inp : Inp) (f : Flow) (st : Session)
    (r : TurnResponse) (h : timeoutChoicePhase inp f = .error (st, r)) :
    (∃ tail, st.messages = f.st.messages ++ tail) ∧
    st.messagesCleared = f.st.messagesCleared ∧
    r.httpStatus = 200 ∧
    (∀ rr, r.reply = some rr → isEarlyReturnReply rr = true →
      st.messages = f.st.messages) := by
  unfold timeoutChoicePhase at h
  try dsimp only at h
  split at h
  · split at h
    · split at h
      all_goals
        simp only [throw, throwThe, MonadExceptOf.throw, ok200] at h
      all_goals cases h
      all_goals refine ⟨⟨[_], rfl⟩, rfl, rfl, ?_⟩
      all_goals intro rr hr he
      all_goals simp at hr
      all_goals subst hr
      all_goals simp [isEarlyReturnReply] at he
    · split at h
      · simp only [throw, throwThe, MonadExceptOf.throw, ok200] at h
        cases h
        refine ⟨⟨[], by simp⟩, rfl, rfl, ?_⟩
        intro rr hr he
        simp at hr
        subst hr
        simp [isEarlyReturnReply] at he
      · simp only [throw, throwThe, MonadExceptOf.throw, ok200] at h
        cases h
        exact ⟨⟨[], by simp⟩, rfl, rfl, fun _ _ _ => rfl⟩
  · simp only [pure, Except.pure] at h
    cases h

theorem timeoutChoicePhase_ok (inp : Inp) (f f' : Flow)
    (h : timeoutChoicePhase inp f = .ok f') : f' = f := by
  unfold timeoutChoicePhase at h
  try dsimp only at h
  split at h
  · split at h
    · split at h
      all_goals simp only [throw, throwThe, MonadExceptOf.throw, ok200] at h
      all_goals cases h
    · split at h
      all_goals simp only [throw, throwThe, MonadExceptOf.throw, ok200] at h
      all_goals cases h
  · simp only [pure, Except.pure] at h
    cases h
    rfl

theorem attachmentPhase_err (inp : Inp) (f : Flow) (st : Session)
    (r : TurnResponse) (h : attachmentPhase inp f = .error (st, r)) :
    st.messages = f.st.messages ∧ st.messagesCleared = f.st.messagesCleared ∧
    r.httpStatus = 200 := by
  unfold attachmentPhase at h
  try dsimp only at h
  repeat' split at h
  all_goals simp only [throw, throwThe, MonadExceptOf.throw, ok200, pure,
    Except.pure] at h
  all_goals cases h
  all_goals exact ⟨rfl, rfl, rfl⟩

theorem attachmentPhase_ok (inp : Inp) (f f' : Flow)
    (h : attachmentPhase inp f = .ok f') :
    f'.st.messages = f.st.messages ∧
    f'.st.messagesCleared = f.st.messagesCleared := by
  unfold attachmentPhase saveDocumentContext at h
  try dsimp only at h
  repeat' split at h
  all_goals simp only [throw, throwThe, MonadExceptOf.throw, ok200, pure,
    Except.pure] at h
  all_goals cases h
  all_goals exact ⟨rfl, rfl⟩

theorem replyPlanPhase_st (inp : Inp) (o : Oracles) (f : Flow) :
    (replyPlanPhase inp o f).1.st.messages = f.st.messages ∧
    (replyPlanPhase inp o f).1.st.messagesCleared = f.st.messagesCleared := by
  unfold replyPlanPhase
  dsimp only
  split
  · split
    · exact ⟨(buildServiceNextStep_preserves _ f.snap f.st o).1,
        (buildServiceNextStep_preserves _ f.snap f.st o).2⟩
    · exact ⟨rfl, rfl⟩
  · exact ⟨rfl, rfl⟩

theorem persistAndRespond_spec (inp : Inp) (o : Oracles) (f : Flow)
    (plan : ReplyPlan) :
    (∃ new, (persistAndRespond inp o f plan).1.messages = f.st.messages ++ new) ∧
    (persistAndRespond inp o f plan).1.messagesCleared = f.st.messagesCleared ∧
    (∀ rr, (persistAndRespond inp o f plan).2.reply = some rr →
      isEarlyReturnReply rr = false) := by
  cases plan with
  | direct t =>
    unfold persistAndRespond
    dsimp only
    repeat' split
    all_goals first
      | exact ⟨⟨[], (List.append_nil _).symm⟩, rfl, fun rr h => by cases h⟩
      | exact ⟨⟨[_], rfl⟩, rfl, fun rr h => by cases h⟩
      | exact ⟨⟨[_, _], List.append_assoc _ _ _⟩, rfl, fun rr h => by cases h; rfl⟩
  | service m =>
    unfold persistAndRespond
    dsimp only
    repeat' split
    all_goals first
      | exact ⟨⟨[], (List.append_nil _).symm⟩, rfl, fun rr h => by cases h⟩
      | exact ⟨⟨[_], rfl⟩, rfl, fun rr h => by cases h⟩
      | exact ⟨⟨[_, _], List.append_assoc _ _ _⟩, rfl, fun rr h => by cases h; rfl⟩
  | prompt tag =>
    cases hAI : o.replyAI with
    | ok t =>
      unfold persistAndRespond
      dsimp only
      simp only [hAI]
      repeat' split
      all_goals first
        | exact ⟨⟨[], (List.append_nil _).symm⟩, rfl, fun rr h => by cases h⟩
        | exact ⟨⟨[_], rfl⟩, rfl, fun rr h => by cases h⟩
        | exact ⟨⟨[_, _], List.append_assoc _ _ _⟩, rfl, fun rr h => by cases h; rfl⟩
    | error e =>
      unfold persistAndRespond
      dsimp only
      simp only [hAI]
      repeat' split
      all_goals first
        | exact ⟨⟨[], (List.append_nil _).symm⟩, rfl, fun rr h => by cases h⟩
        | exact ⟨⟨[_], rfl⟩, rfl, fun rr h => by cases h⟩
        | exact ⟨⟨[_, _], List.append_assoc _ _ _⟩, rfl, fun rr h => by cases h; rfl⟩

end MyGovHub

namespace MyGovHub

theorem midPhases_spec (inp : Inp) (o : Oracles) (f : Flow) :
    ((midPhases inp o f).st.messages = f.st.messages ∧
     (midPhases inp o f).st.messagesCleared = f.st.messagesCleared) ∨
    ((midPhases inp o f).st.messages = [] ∧
     ∃ svc, svc ∈ (midPhases inp o f).st.messagesCleared ∧
       svc ∉ f.st.messagesCleared) := by
  unfold midPhases
  have hA := staleFlagPhase_preserves f
  have hB := docClassifyPhase_preserves inp o (staleFlagPhase f)
  have hC := commitPhase_preserves (docClassifyPhase inp o (staleFlagPhase f))
  have hD := stagingPhase_preserves inp
    (commitPhase (docClassifyPhase inp o (staleFlagPhase f)))
  have hE := serviceIntentPhase_preserves inp o
    (stagingPhase inp (commitPhase (docClassifyPhase inp o (staleFlagPhase f))))
  have hF := refetchPhase_preserves
    (serviceIntentPhase inp o (stagingPhase inp (commitPhase
      (docClassifyPhase inp o (staleFlagPhase f)))))
  have hG := serviceChainPhase_preserves inp o
    (refetchPhase (serviceIntentPhase inp o (stagingPhase inp (commitPhase
      (docClassifyPhase inp o (staleFlagPhase f))))))
  have hH := redirectPhase_preserves inp o
    (serviceChainPhase inp o (refetchPhase (serviceIntentPhase inp o
      (stagingPhase inp (commitPhase (docClassifyPhase inp o
        (staleFlagPhase f)))))))
  have hmsg : (redirectPhase inp o (serviceChainPhase inp o (refetchPhase
      (serviceIntentPhase inp o (stagingPhase inp (commitPhase
        (docClassifyPhase inp o (staleFlagPhase f)))))))).st.messages =
      f.st.messages := by
    rw [hH.1, hG.1, hF.1, hE.1, hD.1, hC.1, hB.1, hA.1]
  have hclr : (redirectPhase inp o (serviceChainPhase inp o (refetchPhase
      (serviceIntentPhase inp o (stagingPhase inp (commitPhase
        (docClassifyPhase inp o (staleFlagPhase f)))))))).st.messagesCleared =
      f.st.messagesCleared := by
    rw [hH.2, hG.2, hF.2, hE.2, hD.2, hC.2, hB.2, hA.2]
  rcases readyClearPhase_spec inp (redirectPhase inp o (serviceChainPhase inp o
    (refetchPhase (serviceIntentPhase inp o (stagingPhase inp (commitPhase
      (docClassifyPhase inp o (staleFlagPhase f)))))))) with
    ⟨h1, h2⟩ | ⟨h1, svc, h2, h3⟩
  · left
    exact ⟨h1.trans hmsg, h2.trans hclr⟩
  · right
    refine ⟨h1, svc, ?_, ?_⟩
    · rw [h2]
      exact List.mem_cons_self _ _
    · rw [hclr] at h3
      exact h3

/-- End-state/outcome description of a turn's session log: appended-only, or
    emptied by the one-shot readiness reset (witnessed by a fresh
    `<service>_messages_cleared` marker); early-return replies always come
    with HTTP 200 and a log that gained nothing. -/
def LogOutcome (s : Session) (out : TurnOutcome) : Prop :=
  ((∃ new, out.1.messages = s.messages ++ new) ∨
    (∃ svc, svc ∈ out.1.messagesCleared ∧ svc ∉ s.messagesCleared)) ∧
  (∀ rr, out.2.reply = some rr → isEarlyReturnReply rr = true →
    out.2.httpStatus = 200 ∧ out.1.messages <+: s.messages)

/-- Master log lemma: every turn satisfies `LogOutcome`. -/
theorem processTurn_log (inp : Inp) (o : Oracles) (s : Session) :
    LogOutcome s (processTurn inp o s) := by
  unfold processTurn
  cases hload : loadPhase o s with
  | error out =>
    obtain ⟨st, r⟩ := out
    show LogOutcome s (st, r)
    obtain ⟨hm, hc, h200, hrep⟩ := loadPhase_err o s st r hload
    refine ⟨Or.inl ⟨[], by rw [hm, List.append_nil]⟩, ?_⟩
    intro rr hr he
    rcases hrep with h | h
    · rw [h] at hr
      cases hr
      cases he
    · rw [h] at hr
      cases hr
      cases he
  | ok s1 =>
    have hs1 : s1 = s := loadPhase_ok o s s1 hload
    subst hs1
    dsimp only
    cases htr : transcriptionPhase (terminationPhase inp o
        { st := s1, snap := s1
          intent := transcriptionIntent o inp.message
          pendingKey := (findPendingDoc s1).map Prod.fst
          pendingDoc := (findPendingDoc s1).map Prod.snd
          serviceIntent := none, activeService := none
          ready := false, justReady := false, ocr := none }) with
    | error out =>
      obtain ⟨st, r⟩ := out
      show LogOutcome s1 (st, r)
      obtain ⟨⟨m, hm⟩, hc, h200, p, hrep⟩ := transcriptionPhase_err _ st r htr
      have hterm := terminationPhase_preserves inp o
        { st := s1, snap := s1
          intent := transcriptionIntent o inp.message
          pendingKey := (findPendingDoc s1).map Prod.fst
          pendingDoc := (findPendingDoc s1).map Prod.snd
          serviceIntent := none, activeService := none
          ready := false, justReady := false, ocr := none }
      refine ⟨Or.inl ⟨[m], by rw [hm, hterm.1]⟩, ?_⟩
      intro rr hr he
      rw [hrep] at hr
      cases hr
      cases he
    | ok f2 =>
      dsimp only
      have hf2 := transcriptionPhase_ok _ f2 htr
      cases hto : timeoutChoicePhase inp f2 with
      | error out =>
        obtain ⟨st, r⟩ := out
        show LogOutcome s1 (st, r)
        obtain ⟨⟨tail, hm⟩, hc, h200, hearly⟩ := timeoutChoicePhase_err inp f2 st r hto
        have hterm := terminationPhase_preserves inp o
          { st := s1, snap := s1
            intent := transcriptionIntent o inp.message
            pendingKey := (findPendingDoc s1).map Prod.fst
            pendingDoc := (findPendingDoc s1).map Prod.snd
            serviceIntent := none, activeService := none
            ready := false, justReady := false, ocr := none }
        have hbase : f2.st.messages = s1.messages := by
          rw [hf2, hterm.1]
        refine ⟨Or.inl ⟨tail, by rw [hm, hbase]⟩, ?_⟩
        intro rr hr he
        refine ⟨h200, ?_⟩
        show st.messages <+: s1.messages
        rw [hearly rr hr he, hbase]
      | ok f3 =>
        dsimp only
        have hf3 := timeoutChoicePhase_ok inp f2 f3 hto
        have hterm := terminationPhase_preserves inp o
          { st := s1, snap := s1
            intent := transcriptionIntent o inp.message
            pendingKey := (findPendingDoc s1).map Prod.fst
            pendingDoc := (findPendingDoc s1).map Prod.snd
            serviceIntent := none, activeService := none
            ready := false, justReady := false, ocr := none }
        have hbase : f3.st.messages = s1.messages ∧
            f3.st.messagesCleared = s1.messagesCleared := by
          rw [hf3, hf2]
          exact hterm
        have hmid := midPhases_spec inp o f3
        cases hat : attachmentPhase inp (midPhases inp o f3) with
        | error out =>
          obtain ⟨st, r⟩ := out
          show LogOutcome s1 (st, r)
          obtain ⟨hm, hc, h200⟩ := attachmentPhase_err inp _ st r hat
          rcases hmid with ⟨hm1, hc1⟩ | ⟨hm1, svc, hc1, hc2⟩
          · refine ⟨Or.inl ⟨[], by rw [hm, hm1, hbase.1, List.append_nil]⟩, ?_⟩
            intro rr hr he
            refine ⟨h200, ?_⟩
            show st.messages <+: s1.messages
            rw [hm, hm1, hbase.1]
          · refine ⟨Or.inr ⟨svc, ?_, ?_⟩, ?_⟩
            · rw [hc]
              exact hc1
            · rw [hbase.2] at hc2
              exact hc2
            · intro rr hr he
              refine ⟨h200, ?_⟩
              show st.messages <+: s1.messages
              rw [hm, hm1]
              simp
        | ok f13 =>
          obtain ⟨hm, hc⟩ := attachmentPhase_ok inp _ f13 hat
          dsimp only
          obtain ⟨hpm, hpc⟩ := replyPlanPhase_st inp o f13
          obtain ⟨⟨new, hper⟩, hperc, hprep⟩ :=
            persistAndRespond_spec inp o (replyPlanPhase inp o f13).1
              (replyPlanPhase inp o f13).2
          constructor
          · rcases hmid with ⟨hm1, hc1⟩ | ⟨hm1, svc, hc1, hc2⟩
            · left
              exact ⟨new, by rw [hper, hpm, hm, hm1, hbase.1]⟩
            · right
              refine ⟨svc, ?_, ?_⟩
              · rw [hperc, hpc, hc]
                exact hc1
              · rw [hbase.2] at hc2
                exact hc2
          · intro rr hr he
            rw [hprep rr hr] at he
            cases he

end MyGovHub

namespace MyGovHub

/-- C8 (amended): across every engine operation the session's `messages`
    log is append-only — previously persisted records are never removed or
    rewritten — EXCEPT for the one-shot transcript reset performed the
    first time an active service's readiness predicate is met, which
    empties the log and is witnessed by a freshly set
    `<service>_messages_cleared` marker. -/
theorem messages_append_only_or_reset (inp : Inp) (o : Oracles) (s : Session) :
    (∃ new, (processTurn inp o s).1.messages = s.messages ++ new) ∨
    (∃ svc, svc ∈ (processTurn inp o s).1.messagesCleared ∧
      svc ∉ s.messagesCleared) :=
  (processTurn_log inp o s).1

/-- C10 (amended): every turn answered by one of the early-return paths —
    session-timeout clarification, blurry-document notice,
    identity-mismatch notice, wrong-document-category notice — returns
    HTTP 200 and appends neither the user's message nor an assistant reply:
    the persisted log is a prefix of the prior log (unchanged, or emptied
    beforehand by the one-shot readiness reset). -/
theorem early_return_appends_nothing (inp : Inp) (o : Oracles) (s : Session)
    (rr : Reply) (hr : (processTurn inp o s).2.reply = some rr)
    (he : isEarlyReturnReply rr = true) :
    (processTurn inp o s).2.httpStatus = 200 ∧
    (processTurn inp o s).1.messages <+: s.messages :=
  (processTurn_log inp o s).2 rr hr he

/-- Witness for `early_return_appends_nothing` at a concrete
    timeout-clarification turn. -/
theorem early_return_appends_nothing_witness :
    (processTurn (textTurn "hmm") baseOracles timeoutSession).2.httpStatus = 200 ∧
    (processTurn (textTurn "hmm") baseOracles timeoutSession).1.messages <+:
      timeoutSession.messages :=
  early_return_appends_nothing _ _ _ .timeoutClarification (by decide) (by decide)

end MyGovHub

namespace MyGovHub

/-! ### Skip/identity lemmas for the early pipeline phases -/

theorem loadPhase_skip (o : Oracles) (s : Session)
    (htime : o.sessionTimedOut = false) (harch : s.status ≠ str "archived") :
    loadPhase o s = .ok s := by
  unfold loadPhase
  rw [htime]
  simp only [Bool.and_false, if_false, Bool.false_eq_true, if_neg harch]
  rfl

theorem transcriptionPhase_skip (f : Flow)
    (h : f.intent ≠ some (str "transcription_failed")) :
    transcriptionPhase f = .ok f := by
  unfold transcriptionPhase
  rw [if_neg h]
  rfl

theorem timeoutChoicePhase_skip (inp : Inp) (f : Flow)
    (h : f.snap.timeoutAwaitingChoice.getD false = false) :
    timeoutChoicePhase inp f = .ok f := by
  unfold timeoutChoicePhase
  rw [h]
  rfl

theorem terminationPhase_attach (inp : Inp) (o : Oracles) (f : Flow)
    (h : inp.attachment.isSome) : terminationPhase inp o f = f := by
  unfold terminationPhase
  rw [if_neg]
  intro hc
  rw [Bool.and_eq_true] at hc
  rw [Option.isNone_iff_eq_none] at hc
  rw [hc.2] at h
  cases h

theorem attachmentPhase_none (inp : Inp) (f : Flow)
    (h : inp.attachment = none) : attachmentPhase inp f = .ok f := by
  unfold attachmentPhase
  rw [h]
  rfl

/-! ### Document-key preservation across the mid-pipeline phases -/

theorem mapUpdate_fst (l : List (Str × DocEntry)) (k : Str)
    (g : DocEntry → DocEntry) :
    (l.map (fun p => if p.1 = k then (p.1, g p.2) else p)).map Prod.fst =
      l.map Prod.fst := by
  induction l with
  | nil => rfl
  | cons p t ih =>
    simp only [List.map_cons, ih]
    congr 1
    split <;> rfl

theorem Session.updateDoc_docKeys (s : Session) (k : Str)
    (g : DocEntry → DocEntry) :
    (s.updateDoc k g).docs.map Prod.fst = s.docs.map Prod.fst := by
  unfold Session.updateDoc
  exact mapUpdate_fst s.docs k g

theorem staleFlagPhase_docKeys (f : Flow) :
    (staleFlagPhase f).st.docs.map Prod.fst = f.st.docs.map Prod.fst := by
  unfold staleFlagPhase
  split <;> rfl

theorem docClassifyPhase_docKeys (inp : Inp) (o : Oracles) (f : Flow) :
    (docClassifyPhase inp o f).st.docs.map Prod.fst =
      f.st.docs.map Prod.fst := by
  unfold docClassifyPhase
  dsimp only
  repeat' split
  all_goals first
    | rfl
    | exact Session.updateDoc_docKeys _ _ _

theorem commitPhase_docKeys (f : Flow) :
    (commitPhase f).st.docs.map Prod.fst = f.st.docs.map Prod.fst := by
  unfold commitPhase Session.getDoc
  dsimp only
  repeat' split
  all_goals first
    | rfl
    | exact Session.updateDoc_docKeys _ _ _

theorem stagingPhase_docKeys (inp : Inp) (f : Flow) :
    (stagingPhase inp f).st.docs.map Prod.fst = f.st.docs.map Prod.fst := by
  unfold stagingPhase
  dsimp only
  repeat' split
  all_goals first
    | rfl
    | exact Session.updateDoc_docKeys _ _ _

theorem serviceIntentPhase_docKeys (inp : Inp) (o : Oracles) (f : Flow) :
    (serviceIntentPhase inp o f).st.docs.map Prod.fst =
      f.st.docs.map Prod.fst := by
  unfold serviceIntentPhase
  dsimp only
  repeat' split
  all_goals rfl

theorem refetchPhase_docKeys (f : Flow) :
    (refetchPhase f).st.docs.map Prod.fst = f.st.docs.map Prod.fst := by
  unfold refetchPhase
  dsimp only
  repeat' split
  all_goals rfl

theorem serviceChainPhase_docKeys (inp : Inp) (o : Oracles) (f : Flow) :
    (serviceChainPhase inp o f).st.docs.map Prod.fst =
      f.st.docs.map Prod.fst := by
  unfold serviceChainPhase Session.setWorkflow
  dsimp only
  repeat' split
  all_goals rfl

theorem redirectPhase_docKeys (inp : Inp) (o : Oracles) (f : Flow) :
    (redirectPhase inp o f).st.docs.map Prod.fst =
      f.st.docs.map Prod.fst := by
  unfold redirectPhase
  dsimp only
  repeat' split
  all_goals rfl

theorem readyClearPhase_docKeys (inp : Inp) (f : Flow) :
    (readyClearPhase inp f).st.docs.map Prod.fst =
      f.st.docs.map Prod.fst := by
  unfold readyClearPhase
  dsimp only
  repeat' split
  all_goals rfl

theorem midPhases_docKeys (inp : Inp) (o : Oracles) (f : Flow) :
    (midPhases inp o f).st.docs.map Prod.fst = f.st.docs.map Prod.fst := by
  unfold midPhases
  rw [readyClearPhase_docKeys, redirectPhase_docKeys, serviceChainPhase_docKeys,
    refetchPhase_docKeys, serviceIntentPhase_docKeys, stagingPhase_docKeys,
    commitPhase_docKeys, docClassifyPhase_docKeys, staleFlagPhase_docKeys]

end MyGovHub

namespace MyGovHub

/-- The attachment early return on an identity mismatch
    (src/lambda_handler.py:3638-3673): when both normalizations are
    non-empty and differ, the turn throws the masked-identifier notice with
    the store untouched. -/
theorem attachmentPhase_mismatch (inp : Inp) (f : Flow) (att : Attachment)
    (ocr : OcrResult) (ic : Str)
    (hatt : inp.attachment = some att)
    (hurl : att.hasUrl = true)
    (hname : att.name.isEmpty = false)
    (hocr : inp.ocrResult = some ocr)
    (hblur : ocr.isBlurry = false)
    (hcat : pyLower ocr.detected_category = str "idcard")
    (hic : ocr.extracted_data.get (str "userId") = some ic)
    (hicne : ic.isEmpty = false)
    (hnu : (normalizeIc ic).isEmpty = false)
    (hnm : (normalizeIc inp.userId).isEmpty = false)
    (hdiff : normalizeIc ic ≠ normalizeIc inp.userId) :
    attachmentPhase inp f = .error (ok200 f.st
      (.identityMismatch (maskIc (normalizeIc ic)))
      (some (str "identity_mismatch"))) := by
  unfold attachmentPhase
  rw [hatt, hocr]
  dsimp only
  rw [hurl, hblur, hcat, hic]
  simp [hname, hicne, hnu, hnm, hdiff, throw, throwThe, MonadExceptOf.throw]

end MyGovHub

namespace MyGovHub

/-- C5 (amended): for every uploaded document whose detected category is an
    identity card and whose extracted identifier and the authenticated
    subject's identifier BOTH normalize (strip non-alphanumerics,
    uppercase) to non-empty strings that differ, the turn early-returns the
    masked-identifier mismatch notice — HTTP 200 with intent
    `identity_mismatch` — and the document context entry is not persisted:
    the set of `document_*` context keys in the session is unchanged. -/
theorem identity_mismatch_blocks_persist (inp : Inp) (o : Oracles) (s : Session)
    (att : Attachment) (ocr : OcrResult) (ic : Str)
    (hatt : inp.attachment = some att)
    (hurl : att.hasUrl = true)
    (hname : att.name.isEmpty = false)
    (hocr : inp.ocrResult = some ocr)
    (hblur : ocr.isBlurry = false)
    (hcat : pyLower ocr.detected_category = str "idcard")
    (hic : ocr.extracted_data.get (str "userId") = some ic)
    (hicne : ic.isEmpty = false)
    (hnu : (normalizeIc ic).isEmpty = false)
    (hnm : (normalizeIc inp.userId).isEmpty = false)
    (hdiff : normalizeIc ic ≠ normalizeIc inp.userId)
    (htime : o.sessionTimedOut = false)
    (harch : s.status ≠ str "archived")
    (htr : transcriptionIntent o inp.message = none)
    (hflag : s.timeoutAwaitingChoice.getD false = false) :
    (processTurn inp o s).2.httpStatus = 200 ∧
    (processTurn inp o s).2.intentType = some (str "identity_mismatch") ∧
    (processTurn inp o s).2.reply =
      some (.identityMismatch (maskIc (normalizeIc ic))) ∧
    (processTurn inp o s).1.docs.map Prod.fst = s.docs.map Prod.fst := by
  unfold processTurn
  rw [loadPhase_skip o s htime harch]
  dsimp only
  rw [terminationPhase_attach inp o
    { st := s, snap := s
      intent := transcriptionIntent o inp.message
      pendingKey := (findPendingDoc s).map Prod.fst
      pendingDoc := (findPendingDoc s).map Prod.snd
      serviceIntent := none, activeService := none
      ready := false, justReady := false, ocr := none }
    (by rw [hatt]; rfl)]
  rw [transcriptionPhase_skip
    { st := s, snap := s
      intent := transcriptionIntent o inp.message
      pendingKey := (findPendingDoc s).map Prod.fst
      pendingDoc := (findPendingDoc s).map Prod.snd
      serviceIntent := none, activeService := none
      ready := false, justReady := false, ocr := none }
    (by intro hc; dsimp only at hc; rw [htr] at hc; cases hc)]
  dsimp only
  rw [timeoutChoicePhase_skip inp
    { st := s, snap := s
      intent := transcriptionIntent o inp.message
      pendingKey := (findPendingDoc s).map Prod.fst
      pendingDoc := (findPendingDoc s).map Prod.snd
      serviceIntent := none, activeService := none
      ready := false, justReady := false, ocr := none }
    hflag]
  dsimp only
  rw [attachmentPhase_mismatch inp _ att ocr ic hatt hurl hname hocr hblur
    hcat hic hicne hnu hnm hdiff]
  dsimp only
  refine ⟨rfl, rfl, rfl, ?_⟩
  exact midPhases_docKeys inp o _

/-- Upload of an identity card whose extracted identifier differs from the
    authenticated subject's identifier (both normalize to non-empty
    strings). -/
def mismatchUpload : Inp where
  userId := str "041223070745"
  message := str "here is my ic"
  attachment := some { name := str "ic.jpg", hasUrl := true }
  ekyc := none
  ocrResult := some { extracted_data := [(str "userId", str "880101-01-5555")],
                      detected_category := str "idcard", isBlurry := false }

/-- Witness for `identity_mismatch_blocks_persist` at a concrete
    mismatching identity-card upload. -/
theorem identity_mismatch_blocks_persist_witness :
    (processTurn mismatchUpload baseOracles baseSession).2.httpStatus = 200 ∧
    (processTurn mismatchUpload baseOracles baseSession).2.intentType =
      some (str "identity_mismatch") ∧
    (processTurn mismatchUpload baseOracles baseSession).2.reply =
      some (.identityMismatch (maskIc (normalizeIc (str "880101-01-5555")))) ∧
    (processTurn mismatchUpload baseOracles baseSession).1.docs.map Prod.fst =
      baseSession.docs.map Prod.fst :=
  identity_mismatch_blocks_persist mismatchUpload baseOracles baseSession
    _ _ _ rfl rfl (by decide) rfl rfl (by decide) (by decide) (by decide)
    (by decide) (by decide) (by decide) rfl (by decide) (by decide) rfl

end MyGovHub

namespace MyGovHub

/-! ### Behaviour of the short-text classifiers on the message "exit" -/

theorem isSessionTermination_exit (t : Except Unit Str) :
    isSessionTermination t (str "exit") = true := by
  unfold isSessionTermination
  split
  · rfl
  · decide

theorem isDocumentRejection_exit (t : Except Unit Str) :
    isDocumentRejection t (str "exit") = false := by
  unfold isDocumentRejection
  dsimp only
  rw [if_neg (by decide), if_neg (by decide), if_neg (by decide)]

theorem isAffirmative_exit (t : Except Unit Str) :
    isAffirmative t (str "exit") = false := by
  unfold isAffirmative
  dsimp only
  rw [if_neg (by decide), if_neg (by decide), if_neg (by decide)]

/-! ### The correction parser never fires on "exit" -/

theorem findInfixIdx_none_of_fresh (n h : Str) (c : Char) (hc : c ∈ n)
    (hh : c ∉ h) : findInfixIdx n h = none := by
  induction h with
  | nil =>
    cases n with
    | nil => cases hc
    | cons a t =>
      have hpre : ¬ ((a :: t).isPrefixOf ([] : Str) = true) := by
        simp [List.isPrefixOf]
      unfold findInfixIdx
      rw [if_neg hpre]
  | cons a t ih =>
    have hpre : ¬ (n.isPrefixOf (a :: t) = true) := fun hp =>
      hh ((List.isPrefixOf_iff_prefix.mp hp).subset hc)
    have htail : findInfixIdx n t = none :=
      ih (fun hm => hh (List.mem_cons_of_mem a hm))
    unfold findInfixIdx
    rw [if_neg hpre]
    dsimp only
    rw [htail]
    rfl

theorem foldl_hit_none {α : Type} (step : Option Str → α → Option Str)
    (l : List α) (h : ∀ a, step none a = none) :
    l.foldl step none = none := by
  induction l with
  | nil => rfl
  | cons a t ih =>
    rw [List.foldl_cons, h a]
    exact ih

theorem foldl_congr_id {α β : Type} (f : β → α → β) (l : List α)
    (h : ∀ b a, f b a = b) (b : β) : l.foldl f b = b := by
  induction l generalizing b with
  | nil => rfl
  | cons a t ih =>
    rw [List.foldl_cons, h b a]
    exact ih b

theorem findInfixIdx_is_exit (syn : Str) :
    findInfixIdx (pyLower syn ++ str " is ") (pyLower (str "exit")) = none :=
  findInfixIdx_none_of_fresh _ _ ' '
    (List.mem_append_right _ (by decide)) (by decide)

theorem heuristicCorrections_exit (E : Fmap) (acc : Fmap) :
    heuristicCorrections E (str "exit") acc = acc := by
  unfold heuristicCorrections
  refine foldl_congr_id _ E.keys ?_ acc
  intro b k
  dsimp only
  rw [foldl_hit_none]
  intro syn
  dsimp only
  rw [findInfixIdx_is_exit]

theorem collapseWs_of_noWs (s : Str) (h : ∀ c ∈ s, isWs c = false) :
    collapseWs s = s := by
  induction s with
  | nil => simp [collapseWs]
  | cons c rest ih =>
    unfold collapseWs
    rw [h c (List.mem_cons_self c rest)]
    simp only [Bool.false_eq_true, if_false]
    exact congrArg (c :: ·) (ih fun d hd => h d (List.mem_cons_of_mem c hd))

theorem splitSegs_exit : splitSegs (str "exit") = [str "exit"] := by
  show splitSegsAux [] ('e' :: 'x' :: 'i' :: 't' :: []) =
    [('e' :: 'x' :: 'i' :: 't' :: [])]
  simp [splitSegsAux, segDelim]

theorem parseSegment_exit (E : Fmap) :
    parseSegment E [] (str "exit") = [] := by
  unfold parseSegment
  dsimp only
  rw [if_neg (by decide)]
  rw [(by decide : stripQualifier (pyStrip (str "exit")) = str "exit")]
  rw [(by decide : patternMatch (str "exit") = none)]
  exact heuristicCorrections_exit E []

theorem parseDocumentCorrections_exit (E : Fmap) :
    parseDocumentCorrections (str "exit") E = [] := by
  unfold parseDocumentCorrections
  dsimp only
  by_cases hE : E.isEmpty = true
  · rw [if_pos (by rw [hE]; decide)]
  · rw [if_neg (by
      intro hcond
      simp only [Bool.or_eq_true] at hcond
      rcases hcond with hcep | hcep
      · exact absurd hcep (by decide)
      · exact hE hcep)]
    have h1 : collapseWs (pyStrip (str "exit")) = str "exit" := by
      rw [(by decide : pyStrip (str "exit") = str "exit")]
      exact collapseWs_of_noWs _ (by decide)
    rw [h1, splitSegs_exit, List.foldl_cons, List.foldl_nil,
      parseSegment_exit E]
    rfl

end MyGovHub

namespace MyGovHub

/-! ### Frame lemmas on (status, service, docs, intent) for the turn on
an "exit" message -/

theorem terminationPhase_exit (inp : Inp) (o : Oracles) (f : Flow)
    (hmsg : inp.message = str "exit") (hatt : inp.attachment = none) :
    terminationPhase inp o f =
      { f with st := { f.st with status := str "cancelled", service := [] }
               intent := some (str "force_end_connection") } := by
  unfold terminationPhase
  rw [hmsg, hatt, isSessionTermination_exit]
  rfl

theorem docClassifyPhase_exit (inp : Inp) (o : Oracles) (f : Flow)
    (hmsg : inp.message = str "exit") : docClassifyPhase inp o f = f := by
  have hpc : ∀ E : Fmap,
      (if E.isEmpty then ([] : Fmap) else parseDocumentCorrections (str "exit") E) =
        ([] : Fmap) := by
    intro E
    split
    · rfl
    · exact parseDocumentCorrections_exit E
  unfold docClassifyPhase
  rw [hmsg]
  dsimp only
  split
  · rfl
  · rw [if_neg (by rw [isDocumentRejection_exit]; decide)]
    rw [hpc]
    rw [if_neg (by decide)]
    rw [(by decide : pyLower (pyStrip (str "exit")) = str "exit"),
      isAffirmative_exit]
    rw [if_neg (by simp)]

theorem commitPhase_skip (f : Flow)
    (h : f.intent ≠ some (str "document_verified")) : commitPhase f = f := by
  unfold commitPhase
  split
  · rfl
  · rw [if_neg h]

theorem stagingPhase_skip (inp : Inp) (f : Flow)
    (h : f.intent ≠ some (str "document_correction_provided")) :
    stagingPhase inp f = f := by
  unfold stagingPhase
  split
  · rfl
  · rw [if_neg h]

theorem serviceIntentPhase_skip (inp : Inp) (o : Oracles) (f : Flow)
    (h : f.intent.isSome) : serviceIntentPhase inp o f = f := by
  unfold serviceIntentPhase
  dsimp only
  split
  · rename_i hc
    exfalso
    rw [Bool.and_eq_true] at hc
    rw [Option.isNone_iff_eq_none] at hc
    rw [hc.1] at h
    cases h
  · rfl

theorem redirectPhase_skip (inp : Inp) (o : Oracles) (f : Flow)
    (h : f.intent.isSome) : redirectPhase inp o f = f := by
  unfold redirectPhase
  dsimp only
  split
  · rename_i hc
    exfalso
    rw [Bool.and_eq_true] at hc
    rw [Option.isNone_iff_eq_none] at hc
    rw [hc.1] at h
    cases h
  · rfl

theorem staleFlagPhase_frame (f : Flow) :
    (staleFlagPhase f).st.status = f.st.status ∧
    (staleFlagPhase f).st.service = f.st.service ∧
    (staleFlagPhase f).st.docs = f.st.docs ∧
    (staleFlagPhase f).intent = f.intent := by
  unfold staleFlagPhase
  split <;> exact ⟨rfl, rfl, rfl, rfl⟩

theorem refetchPhase_frame (f : Flow) :
    (refetchPhase f).st = f.st ∧ (refetchPhase f).intent = f.intent := by
  unfold refetchPhase
  dsimp only
  split <;> exact ⟨rfl, rfl⟩

theorem serviceChainPhase_status (inp : Inp) (o : Oracles) (f : Flow) :
    (serviceChainPhase inp o f).st.status = f.st.status ∨
    (serviceChainPhase inp o f).st.status = str "cancelled" := by
  unfold serviceChainPhase Session.setWorkflow
  dsimp only
  repeat' split
  all_goals first
    | exact Or.inl rfl
    | exact Or.inr rfl

theorem serviceChainPhase_intent (inp : Inp) (o : Oracles) (f : Flow) :
    (serviceChainPhase inp o f).intent = f.intent ∨
    (serviceChainPhase inp o f).intent = some (str "renew_license_payment_confirmed") ∨
    (serviceChainPhase inp o f).intent = some (str "force_end_connection") ∨
    (serviceChainPhase inp o f).intent = some (str "license_duration_selected") ∨
    (serviceChainPhase inp o f).intent = some (str "invalid_duration_format") ∨
    (serviceChainPhase inp o f).intent = some (str "tnb_account_selected") ∨
    (serviceChainPhase inp o f).intent = some (str "pay_tnb_bill_payment_confirmed") := by
  unfold serviceChainPhase Session.setWorkflow
  dsimp only
  repeat' split
  all_goals first
    | exact Or.inl rfl
    | simp

theorem serviceChainPhase_sd (inp : Inp) (o : Oracles) (f : Flow) :
    (serviceChainPhase inp o f).st.service = f.st.service ∧
    (serviceChainPhase inp o f).st.docs = f.st.docs := by
  unfold serviceChainPhase Session.setWorkflow
  dsimp only
  repeat' split
  all_goals exact ⟨rfl, rfl⟩

theorem readyClearPhase_frame (inp : Inp) (f : Flow) :
    (readyClearPhase inp f).st.status = f.st.status ∧
    (readyClearPhase inp f).st.service = f.st.service ∧
    (readyClearPhase inp f).st.docs = f.st.docs ∧
    (readyClearPhase inp f).intent = f.intent := by
  unfold readyClearPhase
  dsimp only
  repeat' split
  all_goals exact ⟨rfl, rfl, rfl, rfl⟩

theorem buildServiceNextStep_frame (svc : Str) (snap st : Session) (o : Oracles) :
    (buildServiceNextStep svc snap st o).1.status = st.status ∧
    (buildServiceNextStep svc snap st o).1.service = st.service ∧
    (buildServiceNextStep svc snap st o).1.docs = st.docs := by
  unfold buildServiceNextStep Session.setWorkflow
  dsimp only
  repeat' split
  all_goals exact ⟨rfl, rfl, rfl⟩

theorem replyPlanPhase_frame (inp : Inp) (o : Oracles) (f : Flow) :
    ((replyPlanPhase inp o f).1.st.status = f.st.status ∧
     (replyPlanPhase inp o f).1.st.service = f.st.service ∧
     (replyPlanPhase inp o f).1.st.docs = f.st.docs) ∧
    ((replyPlanPhase inp o f).1.intent = f.intent ∨
     ∃ svc, (replyPlanPhase inp o f).1.intent =
       some (str "service_" ++ svc ++ str "_next")) := by
  unfold replyPlanPhase
  dsimp only
  split
  · split
    · refine ⟨⟨(buildServiceNextStep_frame _ f.snap f.st o).1,
        (buildServiceNextStep_frame _ f.snap f.st o).2.1,
        (buildServiceNextStep_frame _ f.snap f.st o).2.2⟩, ?_⟩
      split
      · exact Or.inr ⟨_, rfl⟩
      · exact Or.inl rfl
    · exact ⟨⟨rfl, rfl, rfl⟩, Or.inl rfl⟩
  · exact ⟨⟨rfl, rfl, rfl⟩, Or.inl rfl⟩

theorem persistAndRespond_frame (inp : Inp) (o : Oracles) (f : Flow)
    (plan : ReplyPlan)
    (h1 : f.intent ≠ some (str "continue_services"))
    (h2 : f.intent ≠ some (str "confirming_end_connection")) :
    (persistAndRespond inp o f plan).1.status = f.st.status ∧
    (persistAndRespond inp o f plan).1.service = f.st.service ∧
    (persistAndRespond inp o f plan).1.docs = f.st.docs := by
  have hcond : (decide (f.intent = some (str "continue_services")) ||
      decide (f.intent = some (str "confirming_end_connection"))) = false := by
    simp [h1, h2]
  unfold persistAndRespond
  dsimp only
  simp only [hcond, Bool.false_eq_true, if_false]
  repeat' split
  all_goals exact ⟨rfl, rfl, rfl⟩

theorem service_next_head (svc : Str) :
    (str "service_" ++ svc ++ str "_next").head? = some 's' := rfl

end MyGovHub

namespace MyGovHub

theorem timeoutChoicePhase_exit_err (inp : Inp) (f : Flow)
    (hmsg : inp.message = str "exit")
    (hflag : f.snap.timeoutAwaitingChoice.getD false = true) :
    timeoutChoicePhase inp f =
      .error (ok200 { f.st with timeoutAwaitingChoice := some false }
        .timeoutClarification (some (str "session_timeout_clarification"))) := by
  unfold timeoutChoicePhase
  rw [hmsg, hflag]
  rfl

theorem service_next_ne (svc t : Str) (ht : t.head? = some 'c') :
    some (str "service_" ++ svc ++ str "_next") ≠ some t := by
  intro hc
  injection hc with hc2
  rw [← hc2] at ht
  rw [service_next_head] at ht
  exact absurd ht (by decide)

/-- After the termination check has forced the `force_end_connection`
    intent on an "exit" turn, the rest of the pipeline (mid phases, reply
    determination, persistence) can re-cancel the session but never
    changes `service` or the document entries, and never completes it. -/
theorem exit_mid (inp : Inp) (o : Oracles) (f : Flow)
    (hmsg : inp.message = str "exit")
    (hint : f.intent = some (str "force_end_connection")) :
    ((persistAndRespond inp o (replyPlanPhase inp o (midPhases inp o f)).1
        (replyPlanPhase inp o (midPhases inp o f)).2).1.status = f.st.status ∨
     (persistAndRespond inp o (replyPlanPhase inp o (midPhases inp o f)).1
        (replyPlanPhase inp o (midPhases inp o f)).2).1.status = str "cancelled") ∧
    (persistAndRespond inp o (replyPlanPhase inp o (midPhases inp o f)).1
        (replyPlanPhase inp o (midPhases inp o f)).2).1.service = f.st.service ∧
    (persistAndRespond inp o (replyPlanPhase inp o (midPhases inp o f)).1
        (replyPlanPhase inp o (midPhases inp o f)).2).1.docs = f.st.docs := by
  have hA := staleFlagPhase_frame f
  have hB := docClassifyPhase_exit inp o (staleFlagPhase f) hmsg
  have hGint : (staleFlagPhase f).intent = some (str "force_end_connection") :=
    (hA.2.2.2).trans hint
  have hC := commitPhase_skip (staleFlagPhase f) (by rw [hGint]; decide)
  have hD := stagingPhase_skip inp (staleFlagPhase f) (by rw [hGint]; decide)
  have hE := serviceIntentPhase_skip inp o (staleFlagPhase f) (by rw [hGint]; rfl)
  have hF := refetchPhase_frame (staleFlagPhase f)
  have hKs := serviceChainPhase_status inp o (refetchPhase (staleFlagPhase f))
  have hKsd := serviceChainPhase_sd inp o (refetchPhase (staleFlagPhase f))
  have hKi := serviceChainPhase_intent inp o (refetchPhase (staleFlagPhase f))
  have hKsome : (serviceChainPhase inp o
      (refetchPhase (staleFlagPhase f))).intent.isSome := by
    rcases hKi with h|h|h|h|h|h|h <;> rw [h]
    · rw [hF.2, hGint]
      rfl
    all_goals rfl
  have hH := redirectPhase_skip inp o _ hKsome
  have hMeq : midPhases inp o f =
      readyClearPhase inp (serviceChainPhase inp o
        (refetchPhase (staleFlagPhase f))) := by
    unfold midPhases
    rw [hB, hC, hD, hE, hH]
  have hR := readyClearPhase_frame inp
    (serviceChainPhase inp o (refetchPhase (staleFlagPhase f)))
  have hMst : (midPhases inp o f).st.status = f.st.status ∨
      (midPhases inp o f).st.status = str "cancelled" := by
    rw [hMeq, hR.1]
    rcases hKs with h | h
    · left
      rw [h, hF.1, hA.1]
    · right
      exact h
  have hMsv : (midPhases inp o f).st.service = f.st.service := by
    rw [hMeq, hR.2.1, hKsd.1, hF.1, hA.2.1]
  have hMdc : (midPhases inp o f).st.docs = f.st.docs := by
    rw [hMeq, hR.2.2.1, hKsd.2, hF.1, hA.2.2.1]
  have hMint : (midPhases inp o f).intent = some (str "force_end_connection") ∨
      (midPhases inp o f).intent = some (str "renew_license_payment_confirmed") ∨
      (midPhases inp o f).intent = some (str "license_duration_selected") ∨
      (midPhases inp o f).intent = some (str "invalid_duration_format") ∨
      (midPhases inp o f).intent = some (str "tnb_account_selected") ∨
      (midPhases inp o f).intent = some (str "pay_tnb_bill_payment_confirmed") := by
    rw [hMeq, hR.2.2.2]
    rcases hKi with h|h|h|h|h|h|h
    · left
      rw [h, hF.2, hGint]
    · right; left; exact h
    · left; exact h
    · right; right; left; exact h
    · right; right; right; left; exact h
    · right; right; right; right; left; exact h
    · right; right; right; right; right; exact h
  have hP := replyPlanPhase_frame inp o (midPhases inp o f)
  have hnc1 : (replyPlanPhase inp o (midPhases inp o f)).1.intent ≠
      some (str "continue_services") := by
    rcases hP.2 with h | ⟨svc, h⟩
    · rw [h]
      rcases hMint with h2|h2|h2|h2|h2|h2 <;> rw [h2] <;> decide
    · rw [h]
      exact service_next_ne svc _ (by decide)
  have hnc2 : (replyPlanPhase inp o (midPhases inp o f)).1.intent ≠
      some (str "confirming_end_connection") := by
    rcases hP.2 with h | ⟨svc, h⟩
    · rw [h]
      rcases hMint with h2|h2|h2|h2|h2|h2 <;> rw [h2] <;> decide
    · rw [h]
      exact service_next_ne svc _ (by decide)
  have hQ := persistAndRespond_frame inp o
    (replyPlanPhase inp o (midPhases inp o f)).1
    (replyPlanPhase inp o (midPhases inp o f)).2 hnc1 hnc2
  refine ⟨?_, ?_, ?_⟩
  · rw [hQ.1, hP.1.1]
    exact hMst
  · rw [hQ.2.1, hP.1.2.1]
    exact hMsv
  · rw [hQ.2.2, hP.1.2.2]
    exact hMdc

end MyGovHub

namespace MyGovHub

/-- C2 (amended): on every turn whose message is exactly "exit" with no
    attachment (session not archived, 15-minute timeout not elapsed), the
    session ends the turn with `status = 'cancelled'` and an empty
    `service`, and no document-verification transition is applied: the
    document entries are unchanged. (The termination check does not
    short-circuit the rest of the pipeline — `exit_applies_workflow_transition`
    shows a service-workflow transition can still fire — but the
    cancellation itself always survives to the persisted session.) -/
theorem exit_cancels_session (inp : Inp) (o : Oracles) (s : Session)
    (hmsg : inp.message = str "exit") (hatt : inp.attachment = none)
    (htime : o.sessionTimedOut = false) (harch : s.status ≠ str "archived") :
    (processTurn inp o s).1.status = str "cancelled" ∧
    (processTurn inp o s).1.service = [] ∧
    (processTurn inp o s).1.docs = s.docs := by
  cases hflag : s.timeoutAwaitingChoice.getD false with
  | true =>
    unfold processTurn
    rw [loadPhase_skip o s htime harch]
    dsimp only
    rw [terminationPhase_exit inp o _ hmsg hatt]
    rw [transcriptionPhase_skip]
    · dsimp only
      rw [timeoutChoicePhase_exit_err inp _ hmsg]
      · dsimp only
        exact ⟨rfl, rfl, rfl⟩
      · exact hflag
    · intro hc
      exact absurd (Option.some.inj hc) (by decide)
  | false =>
    unfold processTurn
    rw [loadPhase_skip o s htime harch]
    dsimp only
    rw [terminationPhase_exit inp o _ hmsg hatt]
    rw [transcriptionPhase_skip]
    · dsimp only
      rw [timeoutChoicePhase_skip inp]
      · dsimp only
        rw [attachmentPhase_none inp _ hatt]
        dsimp only
        have hM := exit_mid inp o
          { st := { s with status := str "cancelled", service := ([] : Str) }
            snap := s
            intent := some (str "force_end_connection")
            pendingKey := (findPendingDoc s).map Prod.fst
            pendingDoc := (findPendingDoc s).map Prod.snd
            serviceIntent := none, activeService := none
            ready := false, justReady := false, ocr := none }
          hmsg rfl
        exact ⟨hM.1.elim (fun h => h.trans rfl) id, hM.2.1.trans rfl,
          hM.2.2.trans rfl⟩
      · exact hflag
    · intro hc
      exact absurd (Option.some.inj hc) (by decide)

/-- Witness for `exit_cancels_session` at a concrete "exit" turn. -/
theorem exit_cancels_session_witness :
    (processTurn (textTurn "exit") baseOracles baseSession).1.status =
      str "cancelled" ∧
    (processTurn (textTurn "exit") baseOracles baseSession).1.service = [] ∧
    (processTurn (textTurn "exit") baseOracles baseSession).1.docs =
      baseSession.docs :=
  exit_cancels_session (textTurn "exit") baseOracles baseSession rfl rfl rfl
    (by decide)

end MyGovHub
